import Mathlib

/-! Oxygen window manager (kstyle/oxygenwindowmanager.cpp)

A shallow embedding of `Oxygen::WindowManager` and of its nested
`AppEventFilter`: the exception lists, the drag heuristics, the drag state
machine driven by mouse events and by the drag timer, and the hand-over of the
move to the platform window manager.

Conventions of the embedding

* C++ `int` values (coordinates, distances, delays) are `Int`: signed overflow
  is undefined behaviour in C++, so every defined run agrees with unbounded
  arithmetic.  The narrowing stores into the fields of xcb events are modelled
  explicitly (`toInt16`, `toUInt32`).
* A `QWidget*` that the code tests against null is an `Option WidgetId`; a
  pointer that the code dereferences without a test is a `WidgetId`, and a
  dereference of a possibly null `QPointer` makes the function return `none`.
* Everything the code asks the toolkit about a widget is a field of `Qt`, a
  read-only description of the widget tree during one call.
* What the code does to the outside (requests to the X server, events passed to
  `QApplication::sendEvent`, window moves, override cursors, installed event
  filters) is recorded in the fields of `WindowManager` that follow its data
  members.
-/

namespace Oxygen

/-! ## Toolkit value types -/

/-- Identity of a widget (a non-null `QWidget*`). -/
abbrev WidgetId := Nat

/-- The `QPoint` value class; the default constructed point is (0,0). -/
structure QPoint where
  x : Int
  y : Int
deriving DecidableEq, Repr

namespace QPoint

/-- Default constructor `QPoint()`. -/
def null : QPoint := ⟨0, 0⟩

instance : Add QPoint := ⟨fun p q => ⟨p.x + q.x, p.y + q.y⟩⟩
instance : Sub QPoint := ⟨fun p q => ⟨p.x - q.x, p.y - q.y⟩⟩

/-- The sum of the absolute values of the coordinates, `QPoint::manhattanLength`. -/
def manhattanLength (p : QPoint) : Int := (p.x.natAbs : Int) + (p.y.natAbs : Int)

end QPoint

/-- The `QRect` value class, stored as its two corners like in Qt. -/
structure QRect where
  x1 : Int
  y1 : Int
  x2 : Int
  y2 : Int
deriving DecidableEq, Repr

namespace QRect

/-- Corner `QRect::topRight`. -/
def topRight (r : QRect) : QPoint := ⟨r.x2, r.y1⟩

/-- Membership test `QRect::contains( point )` (edges included), as Qt computes it. -/
def contains (r : QRect) (p : QPoint) : Bool :=
  let l := if r.x2 < r.x1 - 1 then r.x2 else r.x1
  let rr := if r.x2 < r.x1 - 1 then r.x1 else r.x2
  let t := if r.y2 < r.y1 - 1 then r.y2 else r.y1
  let b := if r.y2 < r.y1 - 1 then r.y1 else r.y2
  if p.x < l ∨ p.x > rr then false
  else if p.y < t ∨ p.y > b then false
  else true

end QRect

/-- Event types the code distinguishes (`QEvent::Type`). -/
inductive EventType where
  | MouseButtonPress
  | MouseMove
  | MouseButtonRelease
  | Other
deriving DecidableEq, Repr

/-- Mouse buttons (`Qt::MouseButton`). -/
inductive MouseButton where
  | NoButton
  | LeftButton
  | RightButton
  | MiddleButton
deriving DecidableEq, Repr

/-- Cursor shapes (`Qt::CursorShape`); only the arrow and the move cursor are named by the code. -/
inductive CursorShape where
  | ArrowCursor
  | SizeAllCursor
  | OtherCursor
deriving DecidableEq, Repr

/-- Keyboard modifier flags (`Qt::KeyboardModifiers`); `Qt::NoModifier` is 0. -/
abbrev KeyboardModifiers := Nat

/-- The value `Qt::NoModifier`. -/
def NoModifier : KeyboardModifiers := 0

/-- A mouse event (`QMouseEvent`, also standing for a plain `QEvent` through its type). -/
structure QEvent where
  type : EventType
  pos : QPoint
  globalPos : QPoint
  button : MouseButton
  buttons : MouseButton
  modifiers : KeyboardModifiers
deriving DecidableEq, Repr

/-- A timer event, identified by the timer it belongs to. -/
structure QTimerEvent where
  timerId : Nat
deriving DecidableEq, Repr

/-- A `QVariant` as far as the code looks at it. -/
structure QVariant where
  isValid : Bool
  toBool : Bool
deriving DecidableEq, Repr

/-- A menu action as far as the code looks at it. -/
structure QAction where
  isSeparator : Bool
  isEnabled : Bool
deriving DecidableEq, Repr

/-- The widget classes that the code tests with `qobject_cast`. -/
inductive WidgetClass where
  | QDialog | QMainWindow | QGroupBox | QMenuBar | QTabBar | QStatusBar
  | QToolBar | QToolButton | QListView | QTreeView | QLabel | QComboBox
  | QProgressBar | QScrollBar | QMdiSubWindow | QAbstractItemView
  | QGraphicsView | QDockWidget
deriving DecidableEq, Repr

/-- Frame shapes (`QFrame::Shape`). -/
inductive FrameShape where
  | NoFrame | Box | Panel | WinPanel | HLine | VLine | StyledPanel
deriving DecidableEq, Repr

/-- Selection modes (`QAbstractItemView::SelectionMode`). -/
inductive SelectionMode where
  | SingleSelection | ContiguousSelection | ExtendedSelection | MultiSelection | NoSelection
deriving DecidableEq, Repr

/-- Drag modes of a graphics view (`QGraphicsView::DragMode`). -/
inductive GraphicsDragMode where
  | NoDrag | ScrollHandDrag | RubberBandDrag
deriving DecidableEq, Repr

/-- Sub-controls of a group box that the code names (`QStyle::SubControl`). -/
inductive SubControl where
  | SC_GroupBoxCheckBox | SC_GroupBoxLabel | SC_GroupBoxFrame
deriving DecidableEq, Repr

/-- The style option of a group box, with the fields that the code sets. -/
structure QStyleOptionGroupBox where
  base : Nat
  flat : Bool
  lineWidth : Int
  midLineWidth : Int
  text : String
  textAlignment : Nat
  subControls : List SubControl
  stateOn : Option Bool
deriving DecidableEq, Repr

/-- The window drag modes of the style configuration (`StyleConfigData::WD_MINIMAL`, `WD_FULL`). -/
inductive DragMode where
  | WD_MINIMAL
  | WD_FULL
deriving DecidableEq, Repr

/-- The configuration read by `WindowManager::initialize` (generated class
`StyleConfigData`, taken as input). -/
structure StyleConfigData where
  windowDragEnabled : Bool
  windowDragMode : DragMode
  useWMMoveResize : Bool
  windowDragWhiteList : List String
  windowDragBlackList : List String

/-- What the toolkit answers about the application and its widgets during one call. -/
structure Qt where
  /-- Build option `HAVE_X11`. -/
  HAVE_X11 : Bool
  /-- Whether `QGuiApplication::platformName()` is "xcb". -/
  platformIsXcb : Bool
  /-- Atom of the reply to the `xcb_intern_atom` request, `none` without reply. -/
  internAtomReply : Option Nat
  /-- Name of the running application, `qApp->applicationName()`. -/
  applicationName : String
  startDragDistance : Int
  startDragTime : Int
  /-- Position of the pointer, `QCursor::pos()`. -/
  cursorPos : QPoint
  /-- The widget that grabs the mouse, `QWidget::mouseGrabber()`. -/
  mouseGrabber : Option WidgetId
  appRootWindow : Nat
  qobject_cast : WidgetId → WidgetClass → Bool
  /-- Test `QObject::inherits( className )`. -/
  inherits : WidgetId → String → Bool
  /-- Value of the dynamic property `PropertyNames::noWindowGrab`. -/
  noWindowGrabProperty : WidgetId → QVariant
  isWindow : WidgetId → Bool
  /-- The chain of `parentWidget()`, nearest first. -/
  ancestors : WidgetId → List WidgetId
  /-- The top-level widget, `QWidget::window()`. -/
  window : WidgetId → WidgetId
  winId : WidgetId → Nat
  cursorShape : WidgetId → CursorShape
  childAt : WidgetId → QPoint → Option WidgetId
  /-- Coordinates in the first widget of a point of the second, `child->mapFrom( widget, point )`. -/
  mapFrom : WidgetId → WidgetId → QPoint → QPoint
  mapToGlobal : WidgetId → QPoint → QPoint
  rect : WidgetId → QRect
  /-- Title bar of a dock widget, `QDockWidget::titleBarWidget()`. -/
  titleBarWidget : WidgetId → Option WidgetId
  /-- Viewport of a scroll area, `QAbstractScrollArea::viewport()`. -/
  viewport : WidgetId → Option WidgetId
  autoRaise : WidgetId → Bool
  isEnabled : WidgetId → Bool
  activeAction : WidgetId → Option QAction
  actionAt : WidgetId → QPoint → Option QAction
  tabAt : WidgetId → QPoint → Int
  isCheckable : WidgetId → Bool
  isFlat : WidgetId → Bool
  isChecked : WidgetId → Bool
  title : WidgetId → String
  alignment : WidgetId → Nat
  /-- Token for what `QStyleOption::initFrom( widget )` copies from the widget. -/
  initFrom : WidgetId → Nat
  /-- Rectangle `widget->style()->subControlRect( CC_GroupBox, option, subControl, widget )`. -/
  subControlRect : WidgetId → QStyleOptionGroupBox → SubControl → QRect
  /-- Whether the text interaction flags of a label have `Qt::TextSelectableByMouse`. -/
  textSelectableByMouse : WidgetId → Bool
  frameShape : WidgetId → FrameShape
  selectionMode : WidgetId → SelectionMode
  /-- Whether `itemView->model()` is non-null. -/
  hasModel : WidgetId → Bool
  /-- Value of `itemView->model()->rowCount()`. -/
  rowCount : WidgetId → Int
  /-- Whether `itemView->indexAt( position )` is a valid index. -/
  indexAtValid : WidgetId → QPoint → Bool
  graphicsDragMode : WidgetId → GraphicsDragMode
  /-- Whether `graphicsView->itemAt( position )` is non-null. -/
  itemAt : WidgetId → QPoint → Bool

/-- The parent widget, `QWidget::parentWidget()` (also used for `QObject::parent()`:
the parent of a widget is a widget). -/
def Qt.parentWidget (qt : Qt) (w : WidgetId) : Option WidgetId := (qt.ancestors w).head?

/-- Cast `qobject_cast<T*>( pointer )` of a possibly null pointer: the pointer when it points
to a `T`, null otherwise. -/
def Qt.cast (qt : Qt) (c : WidgetClass) : Option WidgetId → Option WidgetId
  | none => none
  | some w => if qt.qobject_cast w c then some w else none

/-! ## Exception identifiers -/

/-- Emptiness test `QString::isEmpty`. -/
def QString.isEmpty (s : String) : Bool := decide (s = "")

/-- Split of a list of characters at every occurrence of a separator (empty parts kept),
as `QString::split` does. -/
def splitChars (sep : Char) : List Char → List (List Char)
  | [] => [[]]
  | c :: cs =>
    if c = sep then [] :: splitChars sep cs
    else match splitChars sep cs with
      | [] => [[c]]
      | h :: t => (c :: h) :: t

/-- White space removed by `QString::trimmed` (the ASCII white space characters). -/
def isSpace (c : Char) : Bool :=
  c = ' ' || c.toNat = 9 || c.toNat = 10 || c.toNat = 11 || c.toNat = 12 || c.toNat = 13

/-- White space removed from both ends, `QString::trimmed`. -/
def trimmed (l : List Char) : List Char :=
  ((l.dropWhile isSpace).reverse.dropWhile isSpace).reverse

/-- An entry of an exception list: an application name and a widget class name. -/
structure ExceptionId where
  appName : String
  className : String
deriving DecidableEq, Repr

/-- Modelled from the spec: the constructor of `ExceptionId` is declared in
oxygenwindowmanager.h, which is not among the sources. An exception is a pair of an
application name and a widget class name, written as one string "className@appName" (as in
"ViewSliders@kmix"); the application name is empty when the string has no "@". -/
def ExceptionId.ofString (value : String) : ExceptionId :=
  match splitChars '@' value.data with
  | [] => ⟨"", ""⟩
  | [c] => ⟨"", String.mk (trimmed c)⟩
  | c :: a :: _ => ⟨String.mk (trimmed a), String.mk (trimmed c)⟩

/-- Insertion into a `QSet`, kept as the list of its distinct elements; the order in which
Qt iterates over a set is unspecified, and nothing below depends on the order chosen here. -/
def QSet.insert (x : ExceptionId) (l : List ExceptionId) : List ExceptionId :=
  if x ∈ l then l else l ++ [x]

/-- The C string `name.toLatin1().data()`: characters outside Latin-1 become a question
mark, and the string ends at the first null character. -/
def toLatin1Data (name : String) : String :=
  String.mk ((name.data.map (fun c => if c.toNat ≤ 255 then c else '?')).takeWhile
    (fun c => c.toNat ≠ 0))

/-! ## X11 requests -/

/-- Narrowing store into an `int16_t` field. -/
def toInt16 (v : Int) : Int := (v + 32768) % 65536 - 32768

/-- Narrowing store into a `uint32_t` field. -/
def toUInt32 (v : Int) : Int := v % 4294967296

/-- The two xcb events that `startDrag` builds. -/
inductive XEvent where
  | buttonRelease (event child root : Nat) (event_x event_y root_x root_y : Int)
      (detail state time : Nat) (same_screen : Bool)
  | clientMessage (format : Nat) (window : Nat) (type : Nat) (data32 : List Int)
deriving DecidableEq, Repr

/-- Requests sent over the X connection. -/
inductive XRequest where
  | sendEvent (propagate : Bool) (destination : Nat) (eventMask : Nat) (event : XEvent)
  | ungrabPointer (time : Nat)
  | flush
deriving DecidableEq, Repr

def XCB_WINDOW_NONE : Nat := 0
def XCB_BUTTON_INDEX_1 : Nat := 1
def XCB_BUTTON_MASK_1 : Nat := 256
def XCB_KEY_BUT_MASK_BUTTON_1 : Int := 256
def XCB_CURRENT_TIME : Nat := 0
def XCB_EVENT_MASK_BUTTON_RELEASE : Nat := 8
def XCB_EVENT_MASK_SUBSTRUCTURE_NOTIFY : Nat := 524288
def XCB_EVENT_MASK_SUBSTRUCTURE_REDIRECT : Nat := 1048576

/-! ## The window manager -/

/-- The timer `QBasicTimer` seen through `isActive`, `start` and `stop`: `none` when it is
not active, `some msec` when it runs with that interval. -/
abbrev QBasicTimer := Option Int

/-- Identifier `QBasicTimer::timerId`: 0 when the timer is not active; the identifier that
Qt gives to the running drag timer is taken to be 1. -/
def QBasicTimer.timerId (t : QBasicTimer) : Nat := if t.isSome then 1 else 0

/-- The data members of `Oxygen::WindowManager`, followed by what the manager has done to
its surroundings. -/
structure WindowManager where
  _enabled : Bool
  _useWMMoveResize : Bool
  _dragMode : DragMode
  _dragDistance : Int
  _dragDelay : Int
  _whiteList : List ExceptionId
  _blackList : List ExceptionId
  _dragPoint : QPoint
  _globalDragPoint : QPoint
  _dragTimer : QBasicTimer
  _target : Option WidgetId
  _dragAboutToStart : Bool
  _dragInProgress : Bool
  _locked : Bool
  _cursorOverride : Bool
  _isX11 : Bool
  _moveResizeAtom : Nat
  /-- Widgets on which the manager is installed as event filter, last installed first. -/
  filters : List WidgetId
  /-- Position of every top-level window, `QWidget::pos()`. -/
  windowPos : WidgetId → QPoint
  /-- The stack of override cursors of the application. -/
  overrideCursors : List CursorShape
  /-- Requests sent to the X server, oldest first. -/
  xRequests : List XRequest
  /-- Events passed to `QApplication::sendEvent`, oldest first. -/
  sentEvents : List (WidgetId × QEvent)
  /-- Positions passed to `QCursor::setPos`, oldest first. -/
  cursorMoves : List QPoint

namespace WindowManager

/-- Constructor `WindowManager::WindowManager`. -/
def new (qt : Qt) : WindowManager :=
  let isX11 := if qt.HAVE_X11 then qt.platformIsXcb else false
  { _enabled := true
    _useWMMoveResize := true
    _dragMode := DragMode.WD_FULL
    _dragDistance := qt.startDragDistance
    _dragDelay := qt.startDragTime
    _whiteList := []
    _blackList := []
    _dragPoint := QPoint.null
    _globalDragPoint := QPoint.null
    _dragTimer := none
    _target := none
    _dragAboutToStart := false
    _dragInProgress := false
    _locked := false
    _cursorOverride := false
    _isX11 := isX11
    _moveResizeAtom :=
      if isX11 then (match qt.internAtomReply with | some a => a | none => 0) else 0
    filters := []
    windowPos := fun _ => QPoint.null
    overrideCursors := []
    xRequests := []
    sentEvents := []
    cursorMoves := [] }

/-! The accessors below are declared inline in oxygenwindowmanager.h, which is not
among the sources; each reads or writes the data member of its name. -/

/-- Modelled from the spec: accessor `enabled()` of the absent class declaration; it reads the
member `_enabled` that the constructor initialises. -/
def enabled (s : WindowManager) : Bool := s._enabled

/-- Modelled from the spec: accessor `setEnabled( value )` of the absent class declaration; it
writes the member `_enabled`. -/
def setEnabled (s : WindowManager) (value : Bool) : WindowManager := { s with _enabled := value }

/-- Modelled from the spec: accessor `dragMode()` of the absent class declaration. -/
def dragMode (s : WindowManager) : DragMode := s._dragMode

/-- Modelled from the spec: accessor `setDragMode( value )` of the absent class declaration. -/
def setDragMode (s : WindowManager) (value : DragMode) : WindowManager :=
  { s with _dragMode := value }

/-- Modelled from the spec: accessor `setUseWMMoveResize( value )` of the absent class
declaration. -/
def setUseWMMoveResize (s : WindowManager) (value : Bool) : WindowManager :=
  { s with _useWMMoveResize := value }

/-- Modelled from the spec: accessor `setDragDistance( value )` of the absent class declaration. -/
def setDragDistance (s : WindowManager) (value : Int) : WindowManager :=
  { s with _dragDistance := value }

/-- Modelled from the spec: accessor `setDragDelay( value )` of the absent class declaration. -/
def setDragDelay (s : WindowManager) (value : Int) : WindowManager :=
  { s with _dragDelay := value }

/-- Modelled from the spec: accessor `isLocked()` of the absent class declaration. -/
def isLocked (s : WindowManager) : Bool := s._locked

/-- Modelled from the spec: accessor `setLocked( value )` of the absent class declaration. -/
def setLocked (s : WindowManager) (value : Bool) : WindowManager := { s with _locked := value }

/-- Method `WindowManager::supportWMMoveResize`. -/
def supportWMMoveResize (qt : Qt) (s : WindowManager) : Bool :=
  if qt.HAVE_X11 then s._isX11 else false

/-- Modelled from the spec: accessor `useWMMoveResize()` of the absent class declaration. The
move is handed to the platform window manager when the platform supports it
(`supportWMMoveResize`) and the configuration asks for it (`_useWMMoveResize`, written by
`setUseWMMoveResize`). -/
def useWMMoveResize (qt : Qt) (s : WindowManager) : Bool :=
  supportWMMoveResize qt s && s._useWMMoveResize

/-- Method `WindowManager::initializeWhiteList`. -/
def initializeWhiteList (cfg : StyleConfigData) (s : WindowManager) : WindowManager :=
  let l : List ExceptionId := []
  let l := QSet.insert (ExceptionId.ofString "MplayerWindow") l
  let l := QSet.insert (ExceptionId.ofString "ViewSliders@kmix") l
  let l := QSet.insert (ExceptionId.ofString "Sidebar_Widget@konqueror") l
  let l := cfg.windowDragWhiteList.foldl
    (fun l exception =>
      let id := ExceptionId.ofString exception
      if !QString.isEmpty id.className then QSet.insert (ExceptionId.ofString exception) l else l)
    l
  { s with _whiteList := l }

/-- Method `WindowManager::initializeBlackList`. -/
def initializeBlackList (cfg : StyleConfigData) (s : WindowManager) : WindowManager :=
  let l : List ExceptionId := []
  let l := QSet.insert (ExceptionId.ofString "CustomTrackView@kdenlive") l
  let l := QSet.insert (ExceptionId.ofString "MuseScore") l
  let l := QSet.insert (ExceptionId.ofString "KGameCanvasWidget") l
  let l := cfg.windowDragBlackList.foldl
    (fun l exception =>
      let id := ExceptionId.ofString exception
      if !QString.isEmpty id.className then QSet.insert (ExceptionId.ofString exception) l else l)
    l
  { s with _blackList := l }

/-- Method `WindowManager::initialize` (the name is a reserved word of Lean, hence the
suffix). -/
def initializeManager (qt : Qt) (cfg : StyleConfigData) (s : WindowManager) : WindowManager :=
  let s := s.setEnabled cfg.windowDragEnabled
  let s := s.setDragMode cfg.windowDragMode
  let s := s.setUseWMMoveResize cfg.useWMMoveResize
  let s := s.setDragDistance qt.startDragDistance
  let s := s.setDragDelay qt.startDragTime
  let s := initializeWhiteList cfg s
  initializeBlackList cfg s

/-- The loop of `WindowManager::isBlackListed` over the entries of the black list. -/
def isBlackListedLoop (qt : Qt) (widget : WidgetId) (appName : String) (s : WindowManager) :
    List ExceptionId → Bool × WindowManager
  | [] => (false, s)
  | id :: rest =>
    if !QString.isEmpty id.appName && id.appName != appName then
      isBlackListedLoop qt widget appName s rest
    else if id.className == "*" && !QString.isEmpty id.appName then
      -- if application name matches and all classes are selected
      -- disable the grabbing entirely
      (true, s.setEnabled false)
    else if qt.inherits widget (toLatin1Data id.className) then (true, s)
    else isBlackListedLoop qt widget appName s rest

/-- Method `WindowManager::isBlackListed`: the answer and the manager afterwards. -/
def isBlackListed (qt : Qt) (s : WindowManager) (widget : WidgetId) : Bool × WindowManager :=
  let propertyValue := qt.noWindowGrabProperty widget
  if propertyValue.isValid && propertyValue.toBool then (true, s)
  else isBlackListedLoop qt widget qt.applicationName s s._blackList

/-- The loop of `WindowManager::isWhiteListed` over the entries of the white list. -/
def isWhiteListedLoop (qt : Qt) (widget : WidgetId) (appName : String) :
    List ExceptionId → Bool
  | [] => false
  | id :: rest =>
    if !QString.isEmpty id.appName && id.appName != appName then
      isWhiteListedLoop qt widget appName rest
    else if qt.inherits widget (toLatin1Data id.className) then true
    else isWhiteListedLoop qt widget appName rest

/-- Method `WindowManager::isWhiteListed`. -/
def isWhiteListed (qt : Qt) (s : WindowManager) (widget : WidgetId) : Bool :=
  isWhiteListedLoop qt widget qt.applicationName s._whiteList

/-- Method `WindowManager::isDockWidgetTitle`. -/
def isDockWidgetTitle (qt : Qt) (widget : Option WidgetId) : Bool :=
  match widget with
  | none => false
  | some w =>
    match qt.cast WidgetClass.QDockWidget (qt.parentWidget w) with
    | some dockWidget => decide (some w = qt.titleBarWidget dockWidget)
    | none => false

/-- The viewport test of `WindowManager::isDragable` for one class of item view:
the parent is a view of that class, the widget is its viewport, and the view is not
black listed. `isBlackListed` is only called when the first two hold. -/
def isDragableViewport (qt : Qt) (s : WindowManager) (w : WidgetId) (c : WidgetClass) :
    Bool × WindowManager :=
  match qt.cast c (qt.parentWidget w) with
  | some view =>
    if qt.viewport view = some w then
      let r := isBlackListed qt s view
      (!r.1, r.2)
    else (false, s)
  | none => (false, s)

/-- Method `WindowManager::isDragable`: the answer and the manager afterwards (the call of
`isBlackListed` on a parent view can disable the manager). -/
def isDragable (qt : Qt) (s : WindowManager) (widget : Option WidgetId) : Bool × WindowManager :=
  match widget with
  -- check widget
  | none => (false, s)
  | some w =>
    -- accepted default types
    if (qt.qobject_cast w WidgetClass.QDialog && qt.isWindow w) ||
        (qt.qobject_cast w WidgetClass.QMainWindow && qt.isWindow w) ||
        qt.qobject_cast w WidgetClass.QGroupBox then (true, s)
    -- more accepted types, provided they are not dock widget titles
    else if (qt.qobject_cast w WidgetClass.QMenuBar ||
        qt.qobject_cast w WidgetClass.QTabBar ||
        qt.qobject_cast w WidgetClass.QStatusBar ||
        qt.qobject_cast w WidgetClass.QToolBar) &&
        !isDockWidgetTitle qt (some w) then (true, s)
    else if qt.inherits w "KScreenSaver" && qt.inherits w "KCModule" then (true, s)
    else if isWhiteListed qt s w then (true, s)
    -- flat toolbuttons
    else if qt.qobject_cast w WidgetClass.QToolButton && qt.autoRaise w then (true, s)
    else
      -- viewports
      let r1 := isDragableViewport qt s w WidgetClass.QListView
      if r1.1 then (true, r1.2)
      else
        let r2 := isDragableViewport qt r1.2 w WidgetClass.QTreeView
        if r2.1 then (true, r2.2)
        -- catch labels in status bars
        else if qt.qobject_cast w WidgetClass.QLabel then
          if qt.textSelectableByMouse w then (false, r2.2)
          else if (qt.ancestors w).any (fun parent => qt.qobject_cast parent WidgetClass.QStatusBar)
            then (true, r2.2)
          else (false, r2.2)
        else (false, r2.2)

/-- Method `WindowManager::canDrag( widget )`. -/
def canDrag (qt : Qt) (s : WindowManager) (widget : WidgetId) : Bool :=
  -- check if enabled
  if !s.enabled then false
  -- check mouse grabber
  else if qt.mouseGrabber.isSome then false
  -- check cursor shape
  else if qt.cursorShape widget ≠ CursorShape.ArrowCursor then false
  -- accept
  else true

/-- Modelled from the spec: the template `findParent<T>` is declared in
oxygenwindowmanager.h, which is not among the sources; it answers whether the widget is
embedded in a widget of class `T`, that is, the nearest ancestor of that class. -/
def findParent (qt : Qt) (c : WidgetClass) (widget : WidgetId) : Option WidgetId :=
  (qt.ancestors widget).find? (fun parent => qt.qobject_cast parent c)

/-- The style option that `canDrag` builds to ask for the rectangles of a group box. -/
def groupBoxOption (qt : Qt) (groupBox : WidgetId) : QStyleOptionGroupBox :=
  { base := qt.initFrom groupBox
    flat := qt.isFlat groupBox
    lineWidth := 1
    midLineWidth := 0
    text := qt.title groupBox
    textAlignment := qt.alignment groupBox
    subControls :=
      [SubControl.SC_GroupBoxFrame, SubControl.SC_GroupBoxCheckBox] ++
        (if !QString.isEmpty (qt.title groupBox) then [SubControl.SC_GroupBoxLabel] else [])
    stateOn := some (qt.isChecked groupBox) }

/-- The last part of `WindowManager::canDrag( widget, child, position )`: labels and the
viewports of item views and graphics views. -/
def canDragView (qt : Qt) (widget : WidgetId) (position : QPoint) : Bool :=
  -- labels
  if qt.qobject_cast widget WidgetClass.QLabel && qt.textSelectableByMouse widget then false
  else
    let parent := qt.parentWidget widget
    -- abstract item views
    match (qt.cast WidgetClass.QListView parent).orElse
        (fun _ => qt.cast WidgetClass.QTreeView parent) with
    | some itemView =>
      if some widget = qt.viewport itemView then
        -- QListView
        if qt.frameShape itemView ≠ FrameShape.NoFrame then false
        else if qt.selectionMode itemView ≠ SelectionMode.NoSelection &&
            qt.selectionMode itemView ≠ SelectionMode.SingleSelection &&
            qt.hasModel itemView && qt.rowCount itemView ≠ 0 then false
        else if qt.hasModel itemView && qt.indexAtValid itemView position then false
        else true
      else true
    | none =>
      match qt.cast WidgetClass.QAbstractItemView parent with
      | some itemView =>
        if some widget = qt.viewport itemView then
          -- QAbstractItemView
          if qt.frameShape itemView ≠ FrameShape.NoFrame then false
          else if qt.indexAtValid itemView position then false
          else true
        else true
      | none =>
        match qt.cast WidgetClass.QGraphicsView parent with
        | some graphicsView =>
          if some widget = qt.viewport graphicsView then
            -- QGraphicsView
            if qt.frameShape graphicsView ≠ FrameShape.NoFrame then false
            else if qt.graphicsDragMode graphicsView ≠ GraphicsDragMode.NoDrag then false
            else if qt.itemAt graphicsView position then false
            else true
          else true
        | none => true

/-- Method `WindowManager::canDrag( widget, child, position )`. -/
def canDragAt (qt : Qt) (s : WindowManager) (widget : WidgetId) (child : Option WidgetId)
    (position : QPoint) : Bool :=
  -- retrieve child at given position and check cursor again
  if child.any (fun c => qt.cursorShape c ≠ CursorShape.ArrowCursor) then false
  -- children from which drag should never be enabled
  else if child.any (fun c => qt.qobject_cast c WidgetClass.QComboBox ||
      qt.qobject_cast c WidgetClass.QProgressBar ||
      qt.qobject_cast c WidgetClass.QScrollBar) then false
  -- tool buttons
  else if qt.qobject_cast widget WidgetClass.QToolButton then
    if s.dragMode = DragMode.WD_MINIMAL &&
        (qt.cast WidgetClass.QToolBar (qt.parentWidget widget)).isNone then false
    else qt.autoRaise widget && !qt.isEnabled widget
  -- check menubar
  else if qt.qobject_cast widget WidgetClass.QMenuBar then
    -- do not drag from menubars embedded in Mdi windows
    if (findParent qt WidgetClass.QMdiSubWindow widget).isSome then false
    -- check if there is an active action
    else if (qt.activeAction widget).any (fun a => a.isEnabled) then false
    else
      -- check if action at position exists and is enabled
      match qt.actionAt widget position with
      | some action =>
        if action.isSeparator then true
        else if action.isEnabled then false
        else true
      -- return true in all other cases
      | none => true
  -- in MINIMAL mode, anything that has not been already accepted
  -- and does not come from a toolbar is rejected
  else if s.dragMode = DragMode.WD_MINIMAL then
    if qt.qobject_cast widget WidgetClass.QToolBar then true else false
  -- following checks are relevant only for WD_FULL mode
  -- tabbar. Make sure no tab is under the cursor
  else if qt.qobject_cast widget WidgetClass.QTabBar then decide (qt.tabAt widget position = -1)
  -- check groupboxes
  else if qt.qobject_cast widget WidgetClass.QGroupBox then
    -- non checkable group boxes are always ok
    if !qt.isCheckable widget then true
    else
      let opt := groupBoxOption qt widget
      -- check against groupbox checkbox
      if (qt.subControlRect widget opt SubControl.SC_GroupBoxCheckBox).contains position then false
      -- check against groupbox label
      else if !QString.isEmpty (qt.title widget) &&
          (qt.subControlRect widget opt SubControl.SC_GroupBoxLabel).contains position then false
      else true
  else canDragView qt widget position

/-- Method `WindowManager::resetDrag`. -/
def resetDrag (qt : Qt) (s : WindowManager) : WindowManager :=
  let s :=
    if !useWMMoveResize qt s && s._target.isSome && s._cursorOverride then
      { s with overrideCursors := s.overrideCursors.tail, _cursorOverride := false }
    else s
  let s := { s with _target := none }
  let s := if s._dragTimer.isSome then { s with _dragTimer := none } else s
  { s with
    _dragPoint := QPoint.null
    _globalDragPoint := QPoint.null
    _dragAboutToStart := false
    _dragInProgress := false }

/-- The button release event that `startDrag` sends to the window. -/
def releaseEvent (qt : Qt) (s : WindowManager) (window : Nat) (position : QPoint) : XEvent :=
  XEvent.buttonRelease window XCB_WINDOW_NONE qt.appRootWindow
    (toInt16 s._dragPoint.x) (toInt16 s._dragPoint.x)
    (toInt16 position.x) (toInt16 position.y)
    XCB_BUTTON_INDEX_1 XCB_BUTTON_MASK_1 XCB_CURRENT_TIME true

/-- The move-resize client message that `startDrag` sends to the root window. -/
def clientMessageEvent (s : WindowManager) (window : Nat) (position : QPoint) : XEvent :=
  XEvent.clientMessage 32 window s._moveResizeAtom
    [toUInt32 position.x, toUInt32 position.y, 8, XCB_KEY_BUT_MASK_BUTTON_1, 0]

/-- Method `WindowManager::startDrag`. -/
def startDrag (qt : Qt) (s : WindowManager) (widget : Option WidgetId) (position : QPoint) :
    WindowManager :=
  match widget with
  | none => s
  | some w =>
    if !s.enabled then s
    else if qt.mouseGrabber.isSome then s
    else
      let s :=
        -- ungrab pointer
        if useWMMoveResize qt s then
          if qt.HAVE_X11 then
            let window := qt.winId (qt.window w)
            { s with xRequests := s.xRequests ++
                [ XRequest.sendEvent false window XCB_EVENT_MASK_BUTTON_RELEASE
                    (releaseEvent qt s window position),
                  XRequest.ungrabPointer XCB_CURRENT_TIME,
                  XRequest.sendEvent false qt.appRootWindow
                    (XCB_EVENT_MASK_SUBSTRUCTURE_NOTIFY ||| XCB_EVENT_MASK_SUBSTRUCTURE_REDIRECT)
                    (clientMessageEvent s window position),
                  XRequest.flush ] }
          else s
        else if !s._cursorOverride then
          { s with
            overrideCursors := CursorShape.SizeAllCursor :: s.overrideCursors
            _cursorOverride := true }
        else s
      { s with _dragInProgress := true }

/-- Method `WindowManager::timerEvent`; an event of another timer goes to `QObject`. -/
def timerEvent (qt : Qt) (s : WindowManager) (event : QTimerEvent) : WindowManager :=
  if event.timerId = QBasicTimer.timerId s._dragTimer then
    let s := { s with _dragTimer := none }
    if s._target.isSome then startDrag qt s s._target s._globalDragPoint else s
  else s

/-- Method `WindowManager::mouseMoveEvent`; `none` when the code dereferences a null target. -/
def mouseMoveEvent (qt : Qt) (s : WindowManager) (_object : WidgetId) (mouseEvent : QEvent) :
    Option (Bool × WindowManager) :=
  -- stop timer
  let s := if s._dragTimer.isSome then { s with _dragTimer := none } else s
  -- check drag distance
  if !s._dragInProgress then
    if s._dragAboutToStart then
      if mouseEvent.globalPos = s._globalDragPoint then
        -- start timer
        let s := { s with _dragAboutToStart := false }
        let s := if s._dragTimer.isSome then { s with _dragTimer := none } else s
        some (true, { s with _dragTimer := some s._dragDelay })
      else some (true, resetDrag qt s)
    else if (mouseEvent.globalPos - s._globalDragPoint).manhattanLength ≥ s._dragDistance then
      some (true, { s with _dragTimer := some 0 })
    else some (true, s)
  else if !useWMMoveResize qt s then
    -- use QWidget::move for the grabbing
    match s._target with
    | none => none
    | some target =>
      let window := qt.window target
      let pos := s.windowPos window + mouseEvent.pos - s._dragPoint
      some (true, { s with windowPos := Function.update s.windowPos window pos })
  else some (false, s)

/-- Method `WindowManager::mouseReleaseEvent`. -/
def mouseReleaseEvent (qt : Qt) (s : WindowManager) (_object : WidgetId) (_event : QEvent) :
    Bool × WindowManager :=
  (false, resetDrag qt s)

/-- What `QApplication::sendEvent( receiver, event )` does to the manager: the event is
delivered at once, and the event filters of this class that see it can change the manager.
`none` when a filter dereferences a null target. -/
abbrev Send := WindowManager → WidgetId → QEvent → Option WindowManager

/-- The call `qApp->sendEvent( receiver, event )`: the event is recorded, then delivered. -/
def qAppSendEvent (send : Send) (s : WindowManager) (receiver : WidgetId) (event : QEvent) :
    Option WindowManager :=
  send { s with sentEvents := s.sentEvents ++ [(receiver, event)] } receiver event

/-- The event built by `QMouseEvent( type, pos, button, buttons, modifiers )`; Qt takes the
global position of such an event from `QCursor::pos()`. -/
def localEvent (qt : Qt) (type : EventType) (pos : QPoint) : QEvent :=
  { type := type
    pos := pos
    globalPos := qt.cursorPos
    button := MouseButton.LeftButton
    buttons := MouseButton.LeftButton
    modifiers := NoModifier }

/-- Method `WindowManager::mousePressEvent`. -/
def mousePressEvent (qt : Qt) (send : Send) (s : WindowManager) (object : WidgetId)
    (mouseEvent : QEvent) : Option (Bool × WindowManager) :=
  -- check buttons/modifiers
  if !(mouseEvent.modifiers = NoModifier && mouseEvent.button = MouseButton.LeftButton) then
    some (false, s)
  -- check lock
  else if s.isLocked then some (false, s)
  else
    let s := s.setLocked true
    -- cast to widget
    let widget := object
    -- check if widget can be dragged from current position
    let r := isBlackListed qt s widget
    let s := r.2
    if r.1 || !canDrag qt s widget then some (false, s)
    else
      -- retrieve widget's child at event position
      let position := mouseEvent.pos
      let child := qt.childAt widget position
      if !canDragAt qt s widget child position then some (false, s)
      else
        -- save target and drag point
        let s := { s with
          _target := some widget
          _dragPoint := position
          _globalDragPoint := mouseEvent.globalPos
          _dragAboutToStart := true }
        -- send a move event to the current child with same position
        let localPoint := match child with
          | some c => qt.mapFrom c widget s._dragPoint
          | none => s._dragPoint
        let receiver := match child with
          | some c => c
          | none => widget
        let localMouseEvent := localEvent qt EventType.MouseMove localPoint
        -- never eat event
        (qAppSendEvent send s receiver localMouseEvent).map (fun s => (false, s))

/-- Method `WindowManager::eventFilter`. -/
def eventFilter (qt : Qt) (send : Send) (s : WindowManager) (object : WidgetId)
    (event : QEvent) : Option (Bool × WindowManager) :=
  if !s.enabled then some (false, s)
  else
    match event.type with
    | EventType.MouseButtonPress => mousePressEvent qt send s object event
    | EventType.MouseMove =>
      if some object = s._target then mouseMoveEvent qt s object event else some (false, s)
    | EventType.MouseButtonRelease =>
      if s._target.isSome then some (mouseReleaseEvent qt s object event) else some (false, s)
    | EventType.Other => some (false, s)

/-- Method `WindowManager::AppEventFilter::appMouseEvent`. -/
def AppEventFilter.appMouseEvent (qt : Qt) (send : Send) (s : WindowManager)
    (_object : WidgetId) (event : QEvent) : Option (Bool × WindowManager) :=
  match s._target with
  | none => none
  | some target =>
    -- store target window (see later)
    let window := qt.window target
    -- post some mouseRelease event to the target, in order to counter balance
    -- the mouse press that triggered the drag
    let mouseEvent := localEvent qt EventType.MouseButtonRelease s._dragPoint
    (qAppSendEvent send s target mouseEvent).map (fun s =>
      if event.type = EventType.MouseMove then
        -- quickly move the main cursor out of the window and back
        let cursor := qt.cursorPos
        (false, { s with cursorMoves := s.cursorMoves ++
          [qt.mapToGlobal window (qt.rect window).topRight + ⟨1, 0⟩, cursor] })
      else (false, s))

/-- Method `WindowManager::AppEventFilter::eventFilter`, on the manager it belongs to. -/
def AppEventFilter.eventFilter (qt : Qt) (send : Send) (s : WindowManager) (object : WidgetId)
    (event : QEvent) : Option (Bool × WindowManager) :=
  let s :=
    if event.type = EventType.MouseButtonRelease then
      -- stop drag timer
      let s := if s._dragTimer.isSome then resetDrag qt s else s
      -- unlock
      if s.isLocked then s.setLocked false else s
    else s
  if !s.enabled then some (false, s)
  -- if a drag is in progress, the widget will not receive any event
  else if useWMMoveResize qt s && s._dragInProgress && s._target.isSome &&
      (event.type = EventType.MouseMove || event.type = EventType.MouseButtonPress) then
    AppEventFilter.appMouseEvent qt send s object event
  else some (false, s)

/-- Delivery of an event by Qt as far as this class takes part in it: the application wide
filter (installed on `qApp` by the constructor) sees the event first; unless it consumes the
event, the manager sees it when it is installed as event filter on the receiver. The
argument is the delivery of the events that these filters send in turn. Filters of other
classes and the receiver itself do not touch the manager and are left out. -/
def notify (qt : Qt) (send : Send) : Send := fun s receiver event =>
  match AppEventFilter.eventFilter qt send s receiver event with
  | none => none
  | some (true, s) => some s
  | some (false, s) =>
    if receiver ∈ s.filters then (eventFilter qt send s receiver event).map (fun r => r.2)
    else some s

/-- Delivery of a mouse release: the filters send no event when they see a release, so the
delivery of nested events is never used. -/
def sendRelease (qt : Qt) : Send := notify qt (fun s _ _ => some s)

/-- Delivery of a mouse move: the filters that see it can send a release. -/
def sendMove (qt : Qt) : Send := notify qt (sendRelease qt)

/-- The function `QApplication::sendEvent`: the filters that see a mouse press can send a
move or a release. -/
def sendEvent (qt : Qt) : Send := notify qt (sendMove qt)

/-- Method `WindowManager::registerWidget`. -/
def registerWidget (qt : Qt) (s : WindowManager) (widget : WidgetId) : WindowManager :=
  let r := isBlackListed qt s widget
  if r.1 then { r.2 with filters := widget :: r.2.filters.erase widget }
  else
    let d := isDragable qt r.2 (some widget)
    if d.1 then { d.2 with filters := widget :: d.2.filters.erase widget }
    else d.2

/-- Method `WindowManager::unregisterWidget`. -/
def unregisterWidget (s : WindowManager) (widget : Option WidgetId) : WindowManager :=
  match widget with
  | some w => { s with filters := s.filters.erase w }
  | none => s

end WindowManager

/-! ## Concrete applications and managers -/

/-- An application on X11 named "kdenlive" whose widgets have no particular feature. -/
def plainQt : Qt :=
  { HAVE_X11 := true
    platformIsXcb := true
    internAtomReply := some 355
    applicationName := "kdenlive"
    startDragDistance := 10
    startDragTime := 500
    cursorPos := ⟨100, 100⟩
    mouseGrabber := none
    appRootWindow := 1
    qobject_cast := fun _ _ => false
    inherits := fun _ _ => false
    noWindowGrabProperty := fun _ => ⟨false, false⟩
    isWindow := fun _ => false
    ancestors := fun _ => []
    window := fun w => w
    winId := fun w => 1000 + w
    cursorShape := fun _ => CursorShape.ArrowCursor
    childAt := fun _ _ => none
    mapFrom := fun _ _ p => p
    mapToGlobal := fun _ p => p
    rect := fun _ => ⟨0, 0, 99, 99⟩
    titleBarWidget := fun _ => none
    viewport := fun _ => none
    autoRaise := fun _ => false
    isEnabled := fun _ => true
    activeAction := fun _ => none
    actionAt := fun _ _ => none
    tabAt := fun _ _ => -1
    isCheckable := fun _ => false
    isFlat := fun _ => false
    isChecked := fun _ => false
    title := fun _ => ""
    alignment := fun _ => 0
    initFrom := fun _ => 0
    subControlRect := fun _ _ _ => ⟨0, 0, -1, -1⟩
    textSelectableByMouse := fun _ => false
    frameShape := fun _ => FrameShape.NoFrame
    selectionMode := fun _ => SelectionMode.NoSelection
    hasModel := fun _ => false
    rowCount := fun _ => 0
    indexAtValid := fun _ _ => false
    graphicsDragMode := fun _ => GraphicsDragMode.NoDrag
    itemAt := fun _ _ => false }

/-- The manager right after construction in `plainQt`. -/
def freshManager : WindowManager := WindowManager.new plainQt

/-- A left button press without modifier at (5,5), global position (105,105). -/
def leftPress : QEvent :=
  { type := EventType.MouseButtonPress
    pos := ⟨5, 5⟩
    globalPos := ⟨105, 105⟩
    button := MouseButton.LeftButton
    buttons := MouseButton.LeftButton
    modifiers := NoModifier }

/-- A mouse move to the given global position. -/
def moveTo (globalPos : QPoint) : QEvent :=
  { type := EventType.MouseMove
    pos := ⟨5, 5⟩
    globalPos := globalPos
    button := MouseButton.NoButton
    buttons := MouseButton.LeftButton
    modifiers := NoModifier }

/-- The wildcard entry that switches window dragging off for "kdenlive". -/
def wildcardEntry : ExceptionId := ⟨"kdenlive", "*"⟩

/-- Widget 7 carries the property `noWindowGrab`. -/
def noGrabQt : Qt :=
  { plainQt with noWindowGrabProperty := fun w => if w = 7 then ⟨true, true⟩ else ⟨false, false⟩ }

/-- Widget 7 is a `KGameCanvasWidget`. -/
def canvasQt : Qt :=
  { plainQt with inherits := fun w name => decide (w = 7) && name == "KGameCanvasWidget" }

/-- A manager whose black list has the wildcard entry for "kdenlive". -/
def wildcardManager : WindowManager :=
  { freshManager with _blackList := [wildcardEntry] }

/-- A manager whose black list has a class entry that is iterated before the wildcard entry. -/
def canvasManager : WindowManager :=
  { freshManager with _blackList := [⟨"", "KGameCanvasWidget"⟩, wildcardEntry] }

/-- Widget 7 is an `MplayerWindow`. -/
def mplayerQt : Qt :=
  { plainQt with inherits := fun w name => decide (w = 7) && name == "MplayerWindow" }

/-- A manager that has the class `MplayerWindow` in both lists. -/
def bothListsManager : WindowManager :=
  { freshManager with
    _whiteList := [⟨"", "MplayerWindow"⟩]
    _blackList := [⟨"", "MplayerWindow"⟩] }

/-- An entry takes part in a lookup when it names no application or the running one. -/
def ExceptionApplies (appName : String) (id : ExceptionId) : Prop :=
  id.appName = "" ∨ id.appName = appName

/-- Widget 7 is an `MplayerWindow` and a label whose text can be selected with the mouse. -/
def labelQt : Qt :=
  { plainQt with
    inherits := fun w name => decide (w = 7) && name == "MplayerWindow"
    qobject_cast := fun w c => decide (w = 7) && decide (c = WidgetClass.QLabel)
    textSelectableByMouse := fun w => decide (w = 7) }

/-- A configuration without exception of its own. -/
def plainConfig : StyleConfigData :=
  { windowDragEnabled := true
    windowDragMode := DragMode.WD_FULL
    useWMMoveResize := true
    windowDragWhiteList := []
    windowDragBlackList := [] }

/-- The built-in entries of the white list. -/
def builtinWhiteList : List ExceptionId :=
  [ExceptionId.ofString "MplayerWindow", ExceptionId.ofString "ViewSliders@kmix",
    ExceptionId.ofString "Sidebar_Widget@konqueror"]

/-- The built-in entries of the black list. -/
def builtinBlackList : List ExceptionId :=
  [ExceptionId.ofString "CustomTrackView@kdenlive", ExceptionId.ofString "MuseScore",
    ExceptionId.ofString "KGameCanvasWidget"]

/-- The manager of `freshManager` after `initialize` with `plainConfig`. -/
def initializedManager : WindowManager := WindowManager.initializeManager plainQt plainConfig freshManager

/-- A manager after a press on widget 4 whose move event has been seen: the drag is neither
about to start nor in progress. -/
def pressedManager : WindowManager :=
  { freshManager with
    _target := some 4
    _dragPoint := ⟨5, 5⟩
    _globalDragPoint := ⟨105, 105⟩
    _dragTimer := some 500
    filters := [4] }

/-- A manager in the middle of a drag of widget 4 by the platform window manager. -/
def draggingManager : WindowManager :=
  { freshManager with
    _target := some 4
    _dragPoint := ⟨5, 5⟩
    _globalDragPoint := ⟨105, 105⟩
    _dragInProgress := true
    filters := [4] }

/-- The drag state of the second manager is that of the first: same target, drag timer, drag
points and flags. -/
def SameDragState (s s' : WindowManager) : Prop :=
  s'._target = s._target ∧ s'._dragTimer = s._dragTimer ∧
  s'._dragPoint = s._dragPoint ∧ s'._globalDragPoint = s._globalDragPoint ∧
  s'._dragAboutToStart = s._dragAboutToStart ∧ s'._dragInProgress = s._dragInProgress

/-- A manager right after a press on widget 4: the drag is about to start. -/
def aboutToStartManager : WindowManager :=
  { freshManager with
    _target := some 4
    _dragPoint := ⟨5, 5⟩
    _globalDragPoint := ⟨105, 105⟩
    _dragAboutToStart := true
    _locked := true
    filters := [4] }

/-- Whether the first class derives from the second in Qt, among the classes that the code
tests: the list view and the tree view are item views, no other class derives from another. -/
def WidgetClass.derivesFrom : WidgetClass → WidgetClass → Bool
  | WidgetClass.QListView, WidgetClass.QAbstractItemView => true
  | WidgetClass.QTreeView, WidgetClass.QAbstractItemView => true
  | _, _ => false

/-- The classes of Qt form a tree (a class of objects has one base class): a widget answers
`qobject_cast` for two classes only when one of them derives from the other. -/
def Qt.SingleInheritance (qt : Qt) : Prop :=
  ∀ w c c', qt.qobject_cast w c = true → qt.qobject_cast w c' = true →
    c = c' ∨ c.derivesFrom c' = true ∨ c'.derivesFrom c = true

/-- The application of `plainQt` with widgets of the given classes. -/
def widgetsQt (classOf : WidgetId → Option WidgetClass) : Qt :=
  { plainQt with qobject_cast := fun w c => decide (classOf w = some c) }

/-- Widget 7 is a group box and widget 8 is a combo box. -/
def groupBoxClasses : WidgetId → Option WidgetClass :=
  fun w => if w = 7 then some WidgetClass.QGroupBox
    else if w = 8 then some WidgetClass.QComboBox else none

/-- A group box (widget 7) without check box that has a combo box (widget 8) under (5,5). -/
def groupBoxQt : Qt :=
  { widgetsQt groupBoxClasses with
    ancestors := fun w => if w = 8 then [7] else []
    childAt := fun w p => if w = 7 ∧ p = ⟨5, 5⟩ then some 8 else none }

/-- The manager of `freshManager` in the drag mode `WD_MINIMAL`. -/
def minimalManager : WindowManager := freshManager.setDragMode DragMode.WD_MINIMAL

/-- Widget 7 is a tool bar. -/
def toolBarQt : Qt :=
  widgetsQt (fun w => if w = 7 then some WidgetClass.QToolBar else none)

/-- The child is null, or it has the arrow cursor and is neither a combo box, nor a progress
bar, nor a scroll bar: the first two tests of `canDrag( widget, child, position )` pass. -/
def ChildAllowsDrag (qt : Qt) (child : Option WidgetId) : Prop :=
  ∀ c, child = some c →
    qt.cursorShape c = CursorShape.ArrowCursor ∧
    qt.qobject_cast c WidgetClass.QComboBox = false ∧
    qt.qobject_cast c WidgetClass.QProgressBar = false ∧
    qt.qobject_cast c WidgetClass.QScrollBar = false

/-- Widget 6 is a list view with a model and a frame, widget 7 is its viewport, and there is
an item under every position; the viewport has the given class, if any. -/
def listViewQt (viewportClass : Option WidgetClass) : Qt :=
  { widgetsQt (fun w => if w = 6 then some WidgetClass.QListView
      else if w = 7 then viewportClass else none) with
    ancestors := fun w => if w = 7 then [6] else []
    viewport := fun w => if w = 6 then some 7 else none
    hasModel := fun w => decide (w = 6)
    rowCount := fun w => if w = 6 then 3 else 0
    indexAtValid := fun w _ => decide (w = 6)
    frameShape := fun w => if w = 6 then FrameShape.StyledPanel else FrameShape.NoFrame }

/-- Widget 7 is a menu bar with an enabled action under (5,5), a separator under (50,5) and
nothing elsewhere. -/
def menuBarQt : Qt :=
  { widgetsQt (fun w => if w = 7 then some WidgetClass.QMenuBar else none) with
    actionAt := fun w p =>
      if w = 7 ∧ p = ⟨5, 5⟩ then some ⟨false, true⟩
      else if w = 7 ∧ p = ⟨50, 5⟩ then some ⟨true, true⟩ else none }

/-- A manager after a press on widget 4 at (5,9), global position (105,109), when the drag
timer has fired. -/
def slantedManager : WindowManager :=
  { freshManager with
    _target := some 4
    _dragPoint := ⟨5, 9⟩
    _globalDragPoint := ⟨105, 109⟩
    filters := [4] }

/-- What can reach the manager during one gesture, after the press: a mouse move handled by
`mouseMoveEvent`, a mouse release handled by `mouseReleaseEvent`, or a timer event handled
by `timerEvent`. A new press starts another gesture. -/
inductive GestureEvent where
  | move (object : WidgetId) (event : QEvent)
  | release (object : WidgetId) (event : QEvent)
  | timer (event : QTimerEvent)

/-- The manager after the handler of one event of a gesture. -/
def handleGesture (qt : Qt) (s : WindowManager) : GestureEvent → Option WindowManager
  | GestureEvent.move object event => (WindowManager.mouseMoveEvent qt s object event).map (fun r => r.2)
  | GestureEvent.release object event => some (WindowManager.mouseReleaseEvent qt s object event).2
  | GestureEvent.timer event => some (WindowManager.timerEvent qt s event)

/-- The manager after the handlers of the events of a gesture, in order. -/
def runGesture (qt : Qt) : WindowManager → List GestureEvent → Option WindowManager
  | s, [] => some s
  | s, e :: es =>
    match handleGesture qt s e with
    | none => none
    | some s' => runGesture qt s' es

/-- Some mouse move among the events is at least the drag distance away from the global
drag point (Manhattan length). -/
def ReachesDragDistance (globalDragPoint : QPoint) (dragDistance : Int)
    (events : List GestureEvent) : Prop :=
  ∃ object event, GestureEvent.move object event ∈ events ∧
    (event.globalPos - globalDragPoint).manhattanLength ≥ dragDistance

/-- Timer events carry the identifier of a running timer, which is never 0. -/
def RealTimerEvents (events : List GestureEvent) : Prop :=
  ∀ event, GestureEvent.timer event ∈ events → event.timerId ≠ 0

/-- Widget 4 is a dialog shown as a window. -/
def dialogQt : Qt :=
  { widgetsQt (fun w => if w = 4 then some WidgetClass.QDialog else none) with
    isWindow := fun w => decide (w = 4) }

/-- A left button press without modifier at (5,5) of the widget, under the pointer. -/
def pressAtCursor : QEvent := { leftPress with globalPos := dialogQt.cursorPos }

/-- The manager in the middle of a drag of the dialog by the platform window manager: the
dialog is registered, receives the press, and the drag timer fires. -/
def startedDrag : Option WindowManager :=
  (WindowManager.sendEvent dialogQt
      (WindowManager.registerWidget dialogQt (WindowManager.new dialogQt) 4) 4 pressAtCursor).map
    (fun s => WindowManager.timerEvent dialogQt s ⟨1⟩)

/-! # Properties -/

namespace WindowManager

/-! ## Delivery of the events that the filters send

The filters of this class send a mouse move (from `mousePressEvent`) or a mouse release (from
`appMouseEvent`); the filters that see a release send nothing, and those that see a move can
only send a release. Three levels of delivery are therefore enough: delivering nested events
with `sendEvent` itself gives `sendEvent` again. -/

theorem notify_localRelease_indep (qt : Qt) (send send' : Send) (s : WindowManager)
    (receiver : WidgetId) (p : QPoint) :
    notify qt send s receiver (localEvent qt EventType.MouseButtonRelease p) =
      notify qt send' s receiver (localEvent qt EventType.MouseButtonRelease p) := by
  simp [notify, AppEventFilter.eventFilter, eventFilter, localEvent]

theorem notify_localMove_congr (qt : Qt) (send send' : Send)
    (h : ∀ s r p, send s r (localEvent qt EventType.MouseButtonRelease p) =
      send' s r (localEvent qt EventType.MouseButtonRelease p))
    (s : WindowManager) (receiver : WidgetId) (p : QPoint) :
    notify qt send s receiver (localEvent qt EventType.MouseMove p) =
      notify qt send' s receiver (localEvent qt EventType.MouseMove p) := by
  simp [notify, AppEventFilter.eventFilter, AppEventFilter.appMouseEvent, qAppSendEvent,
    eventFilter, localEvent]
  simp only [localEvent] at h
  simp only [h]

theorem notify_congr (qt : Qt) (send send' : Send)
    (hrelease : ∀ s r p, send s r (localEvent qt EventType.MouseButtonRelease p) =
      send' s r (localEvent qt EventType.MouseButtonRelease p))
    (hmove : ∀ s r p, send s r (localEvent qt EventType.MouseMove p) =
      send' s r (localEvent qt EventType.MouseMove p))
    (s : WindowManager) (receiver : WidgetId) (event : QEvent) :
    notify qt send s receiver event = notify qt send' s receiver event := by
  simp only [notify, AppEventFilter.eventFilter, AppEventFilter.appMouseEvent, qAppSendEvent,
    eventFilter, mousePressEvent, hrelease, hmove]

/-- The delivery `sendEvent` is closed under nesting. -/
theorem notify_sendEvent (qt : Qt) : notify qt (sendEvent qt) = sendEvent qt := by
  funext s receiver event
  exact notify_congr qt (sendEvent qt) (sendMove qt)
    (fun s r p => notify_localRelease_indep qt _ _ s r p)
    (fun s r p => notify_localMove_congr qt _ _
      (fun s r p => notify_localRelease_indep qt _ _ s r p) s r p)
    s receiver event

/-! ## Exception lists -/

theorem isBlackListedLoop_fst_of_wildcard (qt : Qt) (widget : WidgetId) (appName : String)
    (s : WindowManager) (l : List ExceptionId)
    (h : ∃ id ∈ l, id.className = "*" ∧ id.appName ≠ "" ∧ id.appName = appName) :
    (isBlackListedLoop qt widget appName s l).1 = true := by
  induction l with
  | nil => simp at h
  | cons id rest ih =>
    obtain ⟨x, hx, hc, hne, happ⟩ := h
    unfold isBlackListedLoop
    rcases List.mem_cons.mp hx with rfl | hrest
    · have hne' : appName ≠ "" := happ ▸ hne
      simp [QString.isEmpty, hc, hne', happ]
    · have hr := ih ⟨x, hrest, hc, hne, happ⟩
      split_ifs <;> simp [hr]

theorem isBlackListedLoop_enabled_of_wildcard (qt : Qt) (widget : WidgetId) (appName : String)
    (s : WindowManager) (l : List ExceptionId)
    (h : ∃ id ∈ l, id.className = "*" ∧ id.appName ≠ "" ∧ id.appName = appName)
    (hcls : ∀ id ∈ l, ExceptionApplies appName id →
      qt.inherits widget (toLatin1Data id.className) = false) :
    (isBlackListedLoop qt widget appName s l).2.enabled = false := by
  induction l with
  | nil => simp at h
  | cons id rest ih =>
    obtain ⟨x, hx, hc, hne, happ⟩ := h
    unfold isBlackListedLoop
    rcases List.mem_cons.mp hx with rfl | hrest
    · have hne' : appName ≠ "" := happ ▸ hne
      simp [QString.isEmpty, hc, hne', happ, setEnabled, enabled]
    · have hr := ih ⟨x, hrest, hc, hne, happ⟩
        (fun y hy => hcls y (List.mem_cons_of_mem _ hy))
      by_cases h1 : (!QString.isEmpty id.appName && id.appName != appName) = true
      · simp only [h1, if_true]; exact hr
      · by_cases h2 : (id.className == "*" && !QString.isEmpty id.appName) = true
        · simp [h1, h2, setEnabled, enabled]
        · have happl : ExceptionApplies appName id := by
            simp [QString.isEmpty] at h1
            by_cases he : id.appName = ""
            · exact Or.inl he
            · exact Or.inr (h1 he)
          have hi := hcls id (List.mem_cons_self _ _) happl
          simp only [h1, h2, hi]
          simpa using hr

theorem isBlackListedLoop_fst_indep (qt : Qt) (widget : WidgetId) (appName : String)
    (s s' : WindowManager) (l : List ExceptionId) :
    (isBlackListedLoop qt widget appName s l).1 = (isBlackListedLoop qt widget appName s' l).1 := by
  induction l with
  | nil => rfl
  | cons id rest ih =>
    unfold isBlackListedLoop
    split_ifs <;> simp [ih]

theorem isBlackListedLoop_snd (qt : Qt) (widget : WidgetId) (appName : String)
    (s : WindowManager) (l : List ExceptionId) :
    (isBlackListedLoop qt widget appName s l).2 = s ∨
      (isBlackListedLoop qt widget appName s l).2 = s.setEnabled false := by
  induction l with
  | nil => exact Or.inl rfl
  | cons id rest ih =>
    unfold isBlackListedLoop
    split_ifs
    · exact ih
    · exact Or.inr rfl
    · exact Or.inl rfl
    · exact ih

/-- The black list lookup changes at most the member `_enabled`. -/
theorem isBlackListed_snd (qt : Qt) (s : WindowManager) (widget : WidgetId) :
    (isBlackListed qt s widget).2 = s ∨ (isBlackListed qt s widget).2 = s.setEnabled false := by
  unfold isBlackListed
  dsimp only
  split_ifs
  · exact Or.inl rfl
  · exact isBlackListedLoop_snd qt widget qt.applicationName s s._blackList

/-- The answer of the black list lookup depends on the manager through `_blackList` only. -/
theorem isBlackListed_fst_indep (qt : Qt) (s s' : WindowManager) (widget : WidgetId)
    (h : s'._blackList = s._blackList) :
    (isBlackListed qt s' widget).1 = (isBlackListed qt s widget).1 := by
  unfold isBlackListed
  rw [h]
  dsimp only
  split_ifs
  · rfl
  · exact isBlackListedLoop_fst_indep qt widget qt.applicationName s' s s._blackList

/-- C1, as the specification states it, fails: with the wildcard entry for the running
application in the black list, `isBlackListed` answers true but leaves the manager enabled
when the widget carries the property `noWindowGrab` (first part), and also when a class entry
that matches the widget is iterated before the wildcard entry (second part). -/
theorem C1_counterexample :
    ((∃ id ∈ wildcardManager._blackList,
        id.className = "*" ∧ id.appName ≠ "" ∧ id.appName = noGrabQt.applicationName) ∧
      (isBlackListed noGrabQt wildcardManager 7).1 = true ∧
      (isBlackListed noGrabQt wildcardManager 7).2.enabled = true) ∧
    ((∃ id ∈ canvasManager._blackList,
        id.className = "*" ∧ id.appName ≠ "" ∧ id.appName = canvasQt.applicationName) ∧
      (isBlackListed canvasQt canvasManager 7).1 = true ∧
      (isBlackListed canvasQt canvasManager 7).2.enabled = true) := by
  refine ⟨⟨⟨wildcardEntry, by decide, by decide, by decide, by decide⟩, by decide, by decide⟩,
    ⟨⟨wildcardEntry, by decide, by decide, by decide, by decide⟩, by decide, by decide⟩⟩

/-- C1, amended: when the black list has an entry with class name "*" and a non-empty
application name equal to the name of the running application, `isBlackListed( widget )`
returns true for every widget; it leaves the manager disabled when the widget does not carry
the property `noWindowGrab` and inherits the class of no entry that names no application or
the running one. -/
theorem C1_wildcard_disables (qt : Qt) (s : WindowManager) (widget : WidgetId)
    (h : ∃ id ∈ s._blackList,
      id.className = "*" ∧ id.appName ≠ "" ∧ id.appName = qt.applicationName) :
    (isBlackListed qt s widget).1 = true ∧
    (¬((qt.noWindowGrabProperty widget).isValid = true ∧
        (qt.noWindowGrabProperty widget).toBool = true) →
      (∀ id ∈ s._blackList, ExceptionApplies qt.applicationName id →
        qt.inherits widget (toLatin1Data id.className) = false) →
      (isBlackListed qt s widget).2.enabled = false) := by
  constructor
  · unfold isBlackListed
    dsimp only
    split_ifs
    · rfl
    · exact isBlackListedLoop_fst_of_wildcard qt widget qt.applicationName s s._blackList h
  · intro hprop hcls
    unfold isBlackListed
    dsimp only
    have hp : ¬((qt.noWindowGrabProperty widget).isValid &&
        (qt.noWindowGrabProperty widget).toBool) = true := by
      simpa using hprop
    rw [if_neg hp]
    exact isBlackListedLoop_enabled_of_wildcard qt widget qt.applicationName s s._blackList h hcls

/-- C1, amended, at a widget without property of the application "kdenlive". -/
theorem C1_wildcard_disables_witness :
    (∃ id ∈ wildcardManager._blackList,
      id.className = "*" ∧ id.appName ≠ "" ∧ id.appName = plainQt.applicationName) ∧
    (isBlackListed plainQt wildcardManager 3).1 = true ∧
    (isBlackListed plainQt wildcardManager 3).2.enabled = false :=
  have hw : ∃ id ∈ wildcardManager._blackList,
      id.className = "*" ∧ id.appName ≠ "" ∧ id.appName = plainQt.applicationName :=
    ⟨wildcardEntry, by decide, by decide, by decide, by decide⟩
  ⟨hw, (C1_wildcard_disables plainQt wildcardManager 3 hw).1,
    (C1_wildcard_disables plainQt wildcardManager 3 hw).2 (by decide) (fun _ _ _ => rfl)⟩

/-- C2: a left button press without modifier on a widget for which `isBlackListed` returns
true makes `mousePressEvent` return false and records no drag: the target, the drag point,
the global drag point and the flag `_dragAboutToStart` are unchanged, no move event is sent
and the drag timer is untouched. The white list plays no role. -/
theorem C2_blacklisted_press_records_no_drag (qt : Qt) (send : Send) (s : WindowManager)
    (widget : WidgetId) (mouseEvent : QEvent)
    (hbutton : mouseEvent.button = MouseButton.LeftButton)
    (hmod : mouseEvent.modifiers = NoModifier)
    (hblack : (isBlackListed qt s widget).1 = true) :
    ∃ s', mousePressEvent qt send s widget mouseEvent = some (false, s') ∧
      s'._target = s._target ∧ s'._dragPoint = s._dragPoint ∧
      s'._globalDragPoint = s._globalDragPoint ∧
      s'._dragAboutToStart = s._dragAboutToStart ∧
      s'._dragInProgress = s._dragInProgress ∧
      s'._dragTimer = s._dragTimer ∧ s'.sentEvents = s.sentEvents := by
  unfold mousePressEvent
  by_cases hlock : s.isLocked = true
  · exact ⟨s, by simp [hbutton, hmod, hlock], rfl, rfl, rfl, rfl, rfl, rfl, rfl⟩
  · have hb : (isBlackListed qt (s.setLocked true) widget).1 = true := by
      rw [isBlackListed_fst_indep qt s (s.setLocked true) widget rfl]; exact hblack
    refine ⟨(isBlackListed qt (s.setLocked true) widget).2, by simp [hbutton, hmod, hlock, hb], ?_⟩
    rcases isBlackListed_snd qt (s.setLocked true) widget with h | h <;> rw [h] <;>
      exact ⟨rfl, rfl, rfl, rfl, rfl, rfl, rfl⟩

/-- C2 at a widget that is in the black list and in the white list. -/
theorem C2_blacklisted_press_records_no_drag_witness :
    isWhiteListed mplayerQt bothListsManager 7 = true ∧
    (isBlackListed mplayerQt bothListsManager 7).1 = true ∧
    ∃ s', mousePressEvent mplayerQt (sendEvent mplayerQt) bothListsManager 7 leftPress
        = some (false, s') ∧
      s'._target = bothListsManager._target ∧ s'._dragPoint = bothListsManager._dragPoint ∧
      s'._globalDragPoint = bothListsManager._globalDragPoint ∧
      s'._dragAboutToStart = bothListsManager._dragAboutToStart ∧
      s'._dragInProgress = bothListsManager._dragInProgress ∧
      s'._dragTimer = bothListsManager._dragTimer ∧
      s'.sentEvents = bothListsManager.sentEvents :=
  ⟨by decide, by decide,
    C2_blacklisted_press_records_no_drag mplayerQt (sendEvent mplayerQt) bothListsManager 7
      leftPress (by decide) (by decide) (by decide)⟩

/-! ## Platform move and toolkit move -/

theorem mem_QSet_insert (x y : ExceptionId) (l : List ExceptionId) :
    y ∈ QSet.insert x l ↔ y = x ∨ y ∈ l := by
  unfold QSet.insert
  split_ifs with h
  · constructor
    · exact Or.inr
    · rintro (rfl | hy)
      · exact h
      · exact hy
  · simp [or_comm]

theorem nodup_QSet_insert (x : ExceptionId) (l : List ExceptionId) (hl : l.Nodup) :
    (QSet.insert x l).Nodup := by
  unfold QSet.insert
  split_ifs with h
  · exact hl
  · exact List.Nodup.append hl (List.nodup_singleton x) (by simpa using h)

/-- Membership after the loop over the configured exceptions of `initializeWhiteList` and
`initializeBlackList`. -/
theorem mem_foldl_configured (config : List String) (l : List ExceptionId) (y : ExceptionId) :
    y ∈ config.foldl
        (fun l exception =>
          let id := ExceptionId.ofString exception
          if !QString.isEmpty id.className then QSet.insert (ExceptionId.ofString exception) l
          else l) l ↔
      y ∈ l ∨ ∃ e ∈ config, ExceptionId.ofString e = y ∧ y.className ≠ "" := by
  induction config generalizing l with
  | nil => simp
  | cons e rest ih =>
    rw [List.foldl_cons, ih]
    by_cases hc : (ExceptionId.ofString e).className = ""
    · have hne : ∀ y : ExceptionId, ExceptionId.ofString e = y → y.className ≠ "" → False :=
        fun y hy hn => hn (hy ▸ hc)
      simp only [QString.isEmpty, hc, decide_True, Bool.not_true, Bool.false_eq_true, if_false,
        List.mem_cons, exists_eq_or_imp]
      constructor
      · rintro (h | ⟨e', he', h⟩)
        · exact Or.inl h
        · exact Or.inr (Or.inr ⟨e', he', h⟩)
      · rintro (h | ⟨h1, h2⟩ | ⟨e', he', h⟩)
        · exact Or.inl h
        · exact (hne y h1 h2).elim
        · exact Or.inr ⟨e', he', h⟩
    · simp only [QString.isEmpty, hc, decide_False, Bool.not_false, if_true, mem_QSet_insert,
        List.mem_cons, exists_eq_or_imp]
      constructor
      · rintro ((h | h) | ⟨e', he', h⟩)
        · exact Or.inr (Or.inl ⟨h.symm, h ▸ hc⟩)
        · exact Or.inl h
        · exact Or.inr (Or.inr ⟨e', he', h⟩)
      · rintro (h | ⟨h1, _⟩ | ⟨e', he', h⟩)
        · exact Or.inl (Or.inr h)
        · exact Or.inl (Or.inl h1.symm)
        · exact Or.inr ⟨e', he', h⟩

theorem nodup_foldl_configured (config : List String) (l : List ExceptionId) (hl : l.Nodup) :
    (config.foldl
        (fun l exception =>
          let id := ExceptionId.ofString exception
          if !QString.isEmpty id.className then QSet.insert (ExceptionId.ofString exception) l
          else l) l).Nodup := by
  induction config generalizing l with
  | nil => simpa using hl
  | cons e rest ih =>
    rw [List.foldl_cons]
    apply ih
    dsimp only
    split_ifs
    · exact nodup_QSet_insert _ _ hl
    · exact hl

theorem whiteList_initializeWhiteList (cfg : StyleConfigData) (s : WindowManager) :
    (initializeWhiteList cfg s)._whiteList =
      cfg.windowDragWhiteList.foldl
        (fun l exception =>
          let id := ExceptionId.ofString exception
          if !QString.isEmpty id.className then QSet.insert (ExceptionId.ofString exception) l
          else l) builtinWhiteList := by
  have h : QSet.insert (ExceptionId.ofString "Sidebar_Widget@konqueror")
      (QSet.insert (ExceptionId.ofString "ViewSliders@kmix")
        (QSet.insert (ExceptionId.ofString "MplayerWindow") [])) = builtinWhiteList := by decide
  simp only [initializeWhiteList, h]

theorem blackList_initializeBlackList (cfg : StyleConfigData) (s : WindowManager) :
    (initializeBlackList cfg s)._blackList =
      cfg.windowDragBlackList.foldl
        (fun l exception =>
          let id := ExceptionId.ofString exception
          if !QString.isEmpty id.className then QSet.insert (ExceptionId.ofString exception) l
          else l) builtinBlackList := by
  have h : QSet.insert (ExceptionId.ofString "KGameCanvasWidget")
      (QSet.insert (ExceptionId.ofString "MuseScore")
        (QSet.insert (ExceptionId.ofString "CustomTrackView@kdenlive") [])) = builtinBlackList := by
    decide
  simp only [initializeBlackList, h]

theorem builtin_className_ne_empty :
    (∀ id ∈ builtinWhiteList, id.className ≠ "") ∧ (∀ id ∈ builtinBlackList, id.className ≠ "") := by
  decide

/-- C4: after `initializeWhiteList` (resp. `initializeBlackList`) the list holds exactly the
three built-in entries and the configured entries whose class name is not empty; a configured
entry with an empty class name is not in the list; the result does not depend on the previous
content of the list; and the list, a set, has no entry twice. -/
theorem C4_exception_lists_after_initialization (cfg : StyleConfigData) (s : WindowManager) :
    ((∀ id, id ∈ (initializeWhiteList cfg s)._whiteList ↔
        id ∈ builtinWhiteList ∨
          ∃ e ∈ cfg.windowDragWhiteList, ExceptionId.ofString e = id ∧ id.className ≠ "") ∧
      (∀ e ∈ cfg.windowDragWhiteList, (ExceptionId.ofString e).className = "" →
        ExceptionId.ofString e ∉ (initializeWhiteList cfg s)._whiteList) ∧
      (∀ s', (initializeWhiteList cfg s')._whiteList = (initializeWhiteList cfg s)._whiteList) ∧
      (initializeWhiteList cfg s)._whiteList.Nodup) ∧
    ((∀ id, id ∈ (initializeBlackList cfg s)._blackList ↔
        id ∈ builtinBlackList ∨
          ∃ e ∈ cfg.windowDragBlackList, ExceptionId.ofString e = id ∧ id.className ≠ "") ∧
      (∀ e ∈ cfg.windowDragBlackList, (ExceptionId.ofString e).className = "" →
        ExceptionId.ofString e ∉ (initializeBlackList cfg s)._blackList) ∧
      (∀ s', (initializeBlackList cfg s')._blackList = (initializeBlackList cfg s)._blackList) ∧
      (initializeBlackList cfg s)._blackList.Nodup) := by
  have hw : ∀ id, id ∈ (initializeWhiteList cfg s)._whiteList ↔
      id ∈ builtinWhiteList ∨
        ∃ e ∈ cfg.windowDragWhiteList, ExceptionId.ofString e = id ∧ id.className ≠ "" := by
    intro id
    rw [whiteList_initializeWhiteList]
    exact mem_foldl_configured _ _ _
  have hb : ∀ id, id ∈ (initializeBlackList cfg s)._blackList ↔
      id ∈ builtinBlackList ∨
        ∃ e ∈ cfg.windowDragBlackList, ExceptionId.ofString e = id ∧ id.className ≠ "" := by
    intro id
    rw [blackList_initializeBlackList]
    exact mem_foldl_configured _ _ _
  refine ⟨⟨hw, ?_, ?_, ?_⟩, ⟨hb, ?_, ?_, ?_⟩⟩
  · intro e _ hempty hmem
    rcases (hw _).mp hmem with h | ⟨_, _, _, hne⟩
    · exact builtin_className_ne_empty.1 _ h hempty
    · exact hne hempty
  · intro s'
    rw [whiteList_initializeWhiteList, whiteList_initializeWhiteList]
  · rw [whiteList_initializeWhiteList]
    exact nodup_foldl_configured _ _ (by decide)
  · intro e _ hempty hmem
    rcases (hb _).mp hmem with h | ⟨_, _, _, hne⟩
    · exact builtin_className_ne_empty.2 _ h hempty
    · exact hne hempty
  · intro s'
    rw [blackList_initializeBlackList, blackList_initializeBlackList]
  · rw [blackList_initializeBlackList]
    exact nodup_foldl_configured _ _ (by decide)

/-! ## White list and draggable widgets -/

theorem isWhiteListedLoop_iff (qt : Qt) (widget : WidgetId) (appName : String)
    (l : List ExceptionId) :
    isWhiteListedLoop qt widget appName l = true ↔
      ∃ id ∈ l, (id.appName = "" ∨ id.appName = appName) ∧
        qt.inherits widget (toLatin1Data id.className) = true := by
  induction l with
  | nil => simp [isWhiteListedLoop]
  | cons id rest ih =>
    unfold isWhiteListedLoop
    by_cases h1 : (!QString.isEmpty id.appName && id.appName != appName) = true
    · have hno : ¬(id.appName = "" ∨ id.appName = appName) := by
        simp [QString.isEmpty] at h1
        rintro (h | h)
        · exact h1.1 h
        · exact h1.2 h
      simp only [h1, if_true, ih, List.mem_cons, exists_eq_or_imp]
      constructor
      · exact Or.inr
      · rintro (⟨h, _⟩ | h)
        · exact (hno h).elim
        · exact h
    · have hyes : id.appName = "" ∨ id.appName = appName := by
        simp [QString.isEmpty] at h1
        by_cases he : id.appName = ""
        · exact Or.inl he
        · exact Or.inr (h1 he)
      by_cases h2 : qt.inherits widget (toLatin1Data id.className) = true
      · simp only [h1, h2, if_true, List.mem_cons, exists_eq_or_imp]
        simp [hyes]
      · simp only [h1, h2, List.mem_cons, exists_eq_or_imp]
        simpa [h2] using ih

/-- C5: `isWhiteListed( widget )` returns true if and only if the white list has an entry
whose application name is empty or equal to the name of the running application and whose
class name (as passed to `inherits`) is inherited by the widget; an entry that names another
application never matches. -/
theorem C5_isWhiteListed_iff (qt : Qt) (s : WindowManager) (widget : WidgetId) :
    isWhiteListed qt s widget = true ↔
      ∃ id ∈ s._whiteList, (id.appName = "" ∨ id.appName = qt.applicationName) ∧
        qt.inherits widget (toLatin1Data id.className) = true :=
  isWhiteListedLoop_iff qt widget qt.applicationName s._whiteList

/-- C6: a widget (not null) for which `isWhiteListed` returns true is draggable, whatever
its type. -/
theorem C6_whitelisted_is_dragable (qt : Qt) (s : WindowManager) (widget : WidgetId)
    (hwhite : isWhiteListed qt s widget = true) :
    (isDragable qt s (some widget)).1 = true := by
  unfold isDragable
  dsimp only
  split_ifs <;> rfl

/-- C6 at a label whose text can be selected with the mouse. -/
theorem C6_whitelisted_is_dragable_witness :
    labelQt.qobject_cast 7 WidgetClass.QLabel = true ∧ labelQt.textSelectableByMouse 7 = true ∧
    isWhiteListed labelQt initializedManager 7 = true ∧
    (isDragable labelQt initializedManager (some 7)).1 = true :=
  ⟨by decide, by decide, by decide,
    C6_whitelisted_is_dragable labelQt initializedManager 7 (by decide)⟩

/-! ## The drag state machine -/

/-- C7: a mouse move handled by `mouseMoveEvent` while no drag is in progress and the flag
`_dragAboutToStart` is false is consumed; the drag timer is started, with delay 0, exactly
when the Manhattan length of (global position - global drag point) reaches `_dragDistance`,
and is not active afterwards otherwise; nothing else changes, `_dragInProgress` included. -/
theorem C7_move_starts_timer_past_distance (qt : Qt) (s : WindowManager) (object : WidgetId)
    (mouseEvent : QEvent)
    (hprog : s._dragInProgress = false) (habout : s._dragAboutToStart = false) :
    ∃ s', mouseMoveEvent qt s object mouseEvent = some (true, s') ∧
      (s'._dragTimer = some 0 ↔
          (mouseEvent.globalPos - s._globalDragPoint).manhattanLength ≥ s._dragDistance) ∧
      (s'._dragTimer = none ↔
          ¬(mouseEvent.globalPos - s._globalDragPoint).manhattanLength ≥ s._dragDistance) ∧
      s'._dragInProgress = s._dragInProgress ∧
      s' = { s with _dragTimer := s'._dragTimer } := by
  unfold mouseMoveEvent
  by_cases hd : (mouseEvent.globalPos - s._globalDragPoint).manhattanLength ≥ s._dragDistance
  · refine ⟨{ s with _dragTimer := some 0 }, ?_, by simp [hd], by simp [hd], rfl, rfl⟩
    cases ht : s._dragTimer <;> simp [hprog, habout, hd, ht]
  · refine ⟨{ s with _dragTimer := none }, ?_, by simp [hd], by simp [hd], rfl, rfl⟩
    cases ht : s._dragTimer <;> simp [hprog, habout, hd, ht]
    cases s
    simp_all

/-- C7 at a move of 15 pixels, with a drag distance of 10 and the timer running. -/
theorem C7_move_starts_timer_past_distance_witness :
    pressedManager._dragTimer = some 500 ∧ pressedManager._dragDistance = 10 ∧
    ∃ s', mouseMoveEvent plainQt pressedManager 4 (moveTo ⟨115, 110⟩) = some (true, s') ∧
      (s'._dragTimer = some 0 ↔
          ((moveTo ⟨115, 110⟩).globalPos - pressedManager._globalDragPoint).manhattanLength
            ≥ pressedManager._dragDistance) ∧
      (s'._dragTimer = none ↔
          ¬((moveTo ⟨115, 110⟩).globalPos - pressedManager._globalDragPoint).manhattanLength
            ≥ pressedManager._dragDistance) ∧
      s'._dragInProgress = pressedManager._dragInProgress ∧
      s' = { pressedManager with _dragTimer := s'._dragTimer } :=
  ⟨by decide, by decide,
    C7_move_starts_timer_past_distance plainQt pressedManager 4 (moveTo ⟨115, 110⟩)
      (by decide) (by decide)⟩

theorem resetDrag_fields (qt : Qt) (s : WindowManager) :
    (resetDrag qt s)._target = none ∧ (resetDrag qt s)._dragTimer = none ∧
    (resetDrag qt s)._dragPoint = QPoint.null ∧ (resetDrag qt s)._globalDragPoint = QPoint.null ∧
    (resetDrag qt s)._dragAboutToStart = false ∧ (resetDrag qt s)._dragInProgress = false := by
  unfold resetDrag
  dsimp only
  split_ifs <;> simp_all

theorem resetDrag_keeps (qt : Qt) (s : WindowManager) :
    (resetDrag qt s)._enabled = s._enabled ∧ (resetDrag qt s)._locked = s._locked ∧
    (resetDrag qt s).filters = s.filters ∧ (resetDrag qt s).sentEvents = s.sentEvents ∧
    (resetDrag qt s)._isX11 = s._isX11 ∧
    (resetDrag qt s)._useWMMoveResize = s._useWMMoveResize := by
  unfold resetDrag
  dsimp only
  split_ifs <;> exact ⟨rfl, rfl, rfl, rfl, rfl, rfl⟩

/-- C8: `mouseReleaseEvent` returns false and leaves the manager as `resetDrag` does; after
`resetDrag` the target is cleared, the drag timer is not active, `_dragPoint` and
`_globalDragPoint` are the null point (0,0), and the flags `_dragAboutToStart` and
`_dragInProgress` are false. -/
theorem C8_release_resets_drag (qt : Qt) (s : WindowManager) (object : WidgetId)
    (event : QEvent) :
    (mouseReleaseEvent qt s object event).1 = false ∧
    (mouseReleaseEvent qt s object event).2 = resetDrag qt s ∧
    (resetDrag qt s)._target = none ∧ (resetDrag qt s)._dragTimer = none ∧
    (resetDrag qt s)._dragPoint = ⟨0, 0⟩ ∧ (resetDrag qt s)._globalDragPoint = ⟨0, 0⟩ ∧
    (resetDrag qt s)._dragAboutToStart = false ∧ (resetDrag qt s)._dragInProgress = false :=
  ⟨rfl, rfl, resetDrag_fields qt s⟩

/-- C9, as the specification states it, fails: `initialize`, which runs
`initializeWhiteList` and `initializeBlackList`, leaves a drag in progress, its target and a
running drag timer as they are. -/
theorem C9_counterexample :
    (draggingManager._target = some 4 ∧ draggingManager._dragInProgress = true ∧
      (initializeManager plainQt plainConfig draggingManager)._target = some 4 ∧
      (initializeManager plainQt plainConfig draggingManager)._dragInProgress = true) ∧
    (pressedManager._dragTimer = some 500 ∧
      (initializeManager plainQt plainConfig pressedManager)._dragTimer = some 500) := by
  decide

/-- C9, amended: re-initialising the exception lists (`initializeWhiteList`,
`initializeBlackList`, and `initialize` which runs both) does not touch the drag state: the
target, the drag timer, the drag points and the flags `_dragAboutToStart` and
`_dragInProgress` are what they were before. -/
theorem C9_initialization_keeps_drag_state (qt : Qt) (cfg : StyleConfigData)
    (s : WindowManager) :
    SameDragState s (initializeManager qt cfg s) ∧
    SameDragState s (initializeWhiteList cfg s) ∧
    SameDragState s (initializeBlackList cfg s) :=
  ⟨⟨rfl, rfl, rfl, rfl, rfl, rfl⟩, ⟨rfl, rfl, rfl, rfl, rfl, rfl⟩, ⟨rfl, rfl, rfl, rfl, rfl, rfl⟩⟩

/-! ## The application wide event filter -/

/-- Delivery of a mouse release to a widget while the manager is enabled: no event is sent
in turn, and the drag state is reset when the drag timer runs or when the manager has a
target and is installed as event filter on the receiver. -/
theorem notify_release (qt : Qt) (send : Send) (s : WindowManager) (receiver : WidgetId)
    (event : QEvent) (htype : event.type = EventType.MouseButtonRelease)
    (hen : s.enabled = true) (htarget : s._target.isSome = true) :
    ∃ s', notify qt send s receiver event = some s' ∧ s'.sentEvents = s.sentEvents ∧
      ((receiver ∈ s.filters ∨ s._dragTimer.isSome = true) →
        s'._dragInProgress = false ∧ s'._target = none) ∧
      (¬(receiver ∈ s.filters ∨ s._dragTimer.isSome = true) →
        s'._dragInProgress = s._dragInProgress ∧ s'._target = s._target) := by
  obtain ⟨r1, r2, _, _, _, r6⟩ := resetDrag_fields qt s
  obtain ⟨k1, k2, k3, k4, _, _⟩ := resetDrag_keeps qt s
  simp only [enabled] at hen
  unfold notify AppEventFilter.eventFilter
  by_cases htimer : s._dragTimer.isSome = true
  · -- the application wide filter resets the drag
    by_cases hlock : s._locked = true
    · by_cases hmem : receiver ∈ s.filters
      · refine ⟨(resetDrag qt s).setLocked false, ?_, ?_, ?_, ?_⟩
        · simp [htype, htimer, hlock, hen, hmem, isLocked, setLocked, enabled, eventFilter,
            k1, k2, k3, r1]
        · simpa [setLocked] using k4
        · intro _; exact ⟨by simpa [setLocked] using r6, by simpa [setLocked] using r1⟩
        · intro h; exact (h (Or.inr htimer)).elim
      · refine ⟨(resetDrag qt s).setLocked false, ?_, ?_, ?_, ?_⟩
        · simp [htype, htimer, hlock, hen, hmem, isLocked, setLocked, enabled, k1, k2, k3]
        · simpa [setLocked] using k4
        · intro _; exact ⟨by simpa [setLocked] using r6, by simpa [setLocked] using r1⟩
        · intro h; exact (h (Or.inr htimer)).elim
    · by_cases hmem : receiver ∈ s.filters
      · refine ⟨resetDrag qt s, ?_, k4, fun _ => ⟨r6, r1⟩, fun h => (h (Or.inr htimer)).elim⟩
        simp [htype, htimer, hlock, hen, hmem, isLocked, enabled, eventFilter, k1, k2, k3, r1]
      · refine ⟨resetDrag qt s, ?_, k4, fun _ => ⟨r6, r1⟩, fun h => (h (Or.inr htimer)).elim⟩
        simp [htype, htimer, hlock, hen, hmem, isLocked, enabled, k1, k2, k3]
  · by_cases hlock : s._locked = true
    · by_cases hmem : receiver ∈ s.filters
      · -- the filter of the manager on the receiver resets the drag
        obtain ⟨q1, _, _, _, _, q6⟩ := resetDrag_fields qt (s.setLocked false)
        obtain ⟨_, _, _, q4, _, _⟩ := resetDrag_keeps qt (s.setLocked false)
        refine ⟨resetDrag qt (s.setLocked false), ?_, ?_, fun _ => ⟨q6, q1⟩,
          fun h => (h (Or.inl hmem)).elim⟩
        · have ht : (s.setLocked false)._target.isSome = true := htarget
          simp [htype, htimer, hlock, hen, hmem, isLocked, enabled, eventFilter,
            mouseReleaseEvent]
          simp [setLocked, hen, hmem, htarget]
        · simpa [setLocked] using q4
      · refine ⟨s.setLocked false, ?_, rfl, fun h => ?_, fun _ => ⟨rfl, rfl⟩⟩
        · simp [htype, htimer, hlock, hen, hmem, isLocked, enabled]
          simp [setLocked, hen, hmem]
        · rcases h with h | h
          · exact (hmem h).elim
          · exact (htimer h).elim
    · by_cases hmem : receiver ∈ s.filters
      · refine ⟨resetDrag qt s, ?_, k4, fun _ => ⟨r6, r1⟩, fun h => (h (Or.inl hmem)).elim⟩
        simp [htype, htimer, hlock, hen, hmem, isLocked, enabled, eventFilter,
          mouseReleaseEvent, htarget]
      · refine ⟨s, ?_, rfl, fun h => ?_, fun _ => ⟨rfl, rfl⟩⟩
        · simp [htype, htimer, hlock, hen, hmem, isLocked, enabled]
        · rcases h with h | h
          · exact (hmem h).elim
          · exact (htimer h).elim

/-- C10, evaluated where the code fails it. The dialog 4 is registered and pressed, the drag
timer fires and the platform drag is in progress; then `unregisterWidget( 4 )` is called. On
the next mouse move received by another widget the application wide filter sends the left
button release at `_dragPoint` to the target and returns false, but the drag is not reset:
`_dragInProgress` stays true and the target stays set, against the note in `appMouseEvent`
that the release triggers a `resetDrag`. With the dialog still registered the same move
resets the drag. -/
theorem C10_drag_stuck_after_unregister :
    startedDrag.map (fun s => (s.enabled, useWMMoveResize dialogQt s, s._dragInProgress,
        s._target, s.filters)) =
      some (true, true, true, some 4, [4]) ∧
    (startedDrag.bind (fun s =>
        AppEventFilter.eventFilter dialogQt (sendEvent dialogQt) (s.unregisterWidget (some 4)) 9
          (moveTo ⟨300, 300⟩))).map
      (fun r => (r.1, r.2._dragInProgress, r.2._target, r.2.sentEvents.getLast?)) =
      some (false, true, some 4,
        some (4, { type := EventType.MouseButtonRelease, pos := ⟨5, 5⟩, globalPos := ⟨100, 100⟩,
                   button := MouseButton.LeftButton, buttons := MouseButton.LeftButton,
                   modifiers := NoModifier })) ∧
    (startedDrag.bind (fun s =>
        AppEventFilter.eventFilter dialogQt (sendEvent dialogQt) s 9 (moveTo ⟨300, 300⟩))).map
      (fun r => (r.1, r.2._dragInProgress, r.2._target, r.2.sentEvents.getLast?)) =
      some (false, false, none,
        some (4, { type := EventType.MouseButtonRelease, pos := ⟨5, 5⟩, globalPos := ⟨100, 100⟩,
                   button := MouseButton.LeftButton, buttons := MouseButton.LeftButton,
                   modifiers := NoModifier })) := by
  refine ⟨by decide, by decide, by decide⟩

/-- The compensating release where it works: while the manager is enabled,
`useWMMoveResize()` holds, a drag is in progress and a target is set,
`AppEventFilter::eventFilter` answers a `MouseMove` or `MouseButtonPress` event received by
any object by sending a left button `MouseButtonRelease` at `_dragPoint` to the target, and
returns false; the delivery of that release resets the drag when the manager is installed as
event filter on the target (or the drag timer is running). -/
theorem appFilter_release_resets_installed_target (qt : Qt) (s : WindowManager)
    (object target : WidgetId) (event : QEvent)
    (hen : s.enabled = true) (hwm : useWMMoveResize qt s = true)
    (hprog : s._dragInProgress = true) (htarget : s._target = some target)
    (htype : event.type = EventType.MouseMove ∨ event.type = EventType.MouseButtonPress) :
    ∃ s', AppEventFilter.eventFilter qt (sendEvent qt) s object event = some (false, s') ∧
      s'.sentEvents = s.sentEvents ++
        [(target, { type := EventType.MouseButtonRelease, pos := s._dragPoint,
                    globalPos := qt.cursorPos, button := MouseButton.LeftButton,
                    buttons := MouseButton.LeftButton, modifiers := NoModifier })] ∧
      ((target ∈ s.filters ∨ s._dragTimer.isSome = true) →
        s'._dragInProgress = false ∧ s'._target = none) := by
  obtain ⟨s1, h1, h2, h3, _⟩ := notify_release qt (sendMove qt)
    { s with sentEvents := s.sentEvents ++
        [(target, localEvent qt EventType.MouseButtonRelease s._dragPoint)] }
    target (localEvent qt EventType.MouseButtonRelease s._dragPoint) rfl hen
    (by simp [htarget])
  have hne : ¬event.type = EventType.MouseButtonRelease := by
    rcases htype with h | h <;> simp [h]
  have hcond : (useWMMoveResize qt s && s._dragInProgress && s._target.isSome &&
      (decide (event.type = EventType.MouseMove) ||
        decide (event.type = EventType.MouseButtonPress))) = true := by
    rcases htype with h | h <;> simp [hwm, hprog, htarget, h]
  have hen' : (!s.enabled) = false := by simp [hen]
  have happ : AppEventFilter.eventFilter qt (sendEvent qt) s object event =
      AppEventFilter.appMouseEvent qt (sendEvent qt) s object event := by
    unfold AppEventFilter.eventFilter
    simp only [hne, if_false, hen', hcond, if_true, Bool.false_eq_true]
  have hsend : qAppSendEvent (sendEvent qt) s target
      (localEvent qt EventType.MouseButtonRelease s._dragPoint) = some s1 := h1
  rw [happ]
  unfold AppEventFilter.appMouseEvent
  rw [htarget]
  dsimp only
  rw [hsend]
  by_cases hmove : event.type = EventType.MouseMove
  · exact ⟨{ s1 with cursorMoves := s1.cursorMoves ++
        [qt.mapToGlobal (qt.window target) (qt.rect (qt.window target)).topRight + ⟨1, 0⟩,
          qt.cursorPos] }, by simp only [Option.map_some', hmove, if_true], h2, h3⟩
  · exact ⟨s1, by simp only [Option.map_some', hmove, if_false], h2, h3⟩

/-- C11: a mouse move handled by `mouseMoveEvent` while no drag is in progress and the flag
`_dragAboutToStart` is true is consumed (true is returned). When the global position of the
event is the global drag point, the flag becomes false, the drag timer is started with delay
`_dragDelay` (also when it was running) and the target is kept; when the global position
differs, the drag state is reset: the target is cleared, the timer is not active, the drag
points are null and both flags are false. -/
theorem C11_move_while_about_to_start (qt : Qt) (s : WindowManager) (object : WidgetId)
    (mouseEvent : QEvent)
    (hprog : s._dragInProgress = false) (habout : s._dragAboutToStart = true) :
    ∃ s', mouseMoveEvent qt s object mouseEvent = some (true, s') ∧
      (mouseEvent.globalPos = s._globalDragPoint →
        s'._dragAboutToStart = false ∧ s'._dragTimer = some s._dragDelay ∧
        s'._target = s._target ∧ s'._dragInProgress = false ∧
        s'._dragPoint = s._dragPoint ∧ s'._globalDragPoint = s._globalDragPoint) ∧
      (mouseEvent.globalPos ≠ s._globalDragPoint →
        s'._target = none ∧ s'._dragTimer = none ∧
        s'._dragPoint = ⟨0, 0⟩ ∧ s'._globalDragPoint = ⟨0, 0⟩ ∧
        s'._dragAboutToStart = false ∧ s'._dragInProgress = false) := by
  unfold mouseMoveEvent
  by_cases hpos : mouseEvent.globalPos = s._globalDragPoint
  · refine ⟨{ s with _dragAboutToStart := false, _dragTimer := some s._dragDelay }, ?_,
      fun _ => ⟨rfl, rfl, rfl, hprog, rfl, rfl⟩, fun h => (h hpos).elim⟩
    cases ht : s._dragTimer <;> simp [hprog, habout, hpos, ht]
  · cases ht : s._dragTimer with
    | none =>
      refine ⟨resetDrag qt s, ?_, fun h => (hpos h).elim, fun _ => resetDrag_fields qt s⟩
      simp [hprog, habout, hpos, ht]
    | some d =>
      refine ⟨resetDrag qt { s with _dragTimer := none }, ?_, fun h => (hpos h).elim,
        fun _ => resetDrag_fields qt _⟩
      simp [hprog, habout, hpos, ht]

/-- C11 at a move that stays on the press position, and that falls under the first case. -/
theorem C11_move_while_about_to_start_witness :
    (moveTo ⟨105, 105⟩).globalPos = aboutToStartManager._globalDragPoint ∧
    ∃ s', mouseMoveEvent plainQt aboutToStartManager 4 (moveTo ⟨105, 105⟩) = some (true, s') ∧
      ((moveTo ⟨105, 105⟩).globalPos = aboutToStartManager._globalDragPoint →
        s'._dragAboutToStart = false ∧ s'._dragTimer = some aboutToStartManager._dragDelay ∧
        s'._target = aboutToStartManager._target ∧ s'._dragInProgress = false ∧
        s'._dragPoint = aboutToStartManager._dragPoint ∧
        s'._globalDragPoint = aboutToStartManager._globalDragPoint) ∧
      ((moveTo ⟨105, 105⟩).globalPos ≠ aboutToStartManager._globalDragPoint →
        s'._target = none ∧ s'._dragTimer = none ∧
        s'._dragPoint = ⟨0, 0⟩ ∧ s'._globalDragPoint = ⟨0, 0⟩ ∧
        s'._dragAboutToStart = false ∧ s'._dragInProgress = false) :=
  ⟨by decide, C11_move_while_about_to_start plainQt aboutToStartManager 4 (moveTo ⟨105, 105⟩)
    (by decide) (by decide)⟩

/-! ## The decision of `canDrag( widget, child, position )` -/

/-- A description of widgets through one class per widget respects the class tree of Qt. -/
theorem singleInheritance_of_classOf (qt : Qt) (classOf : WidgetId → Option WidgetClass)
    (h : ∀ w c, qt.qobject_cast w c = true → classOf w = some c) : qt.SingleInheritance := by
  intro w c c' hc hc'
  have h1 := h w c hc
  have h2 := h w c' hc'
  rw [h1] at h2
  exact Or.inl (Option.some.inj h2)

theorem singleInheritance_widgetsQt (classOf : WidgetId → Option WidgetClass) :
    (widgetsQt classOf).SingleInheritance :=
  singleInheritance_of_classOf _ classOf (fun _ _ h => of_decide_eq_true h)

/-- The first two tests of `canDrag( widget, child, position )` pass for a child that allows
the drag. -/
theorem childTests_of_childAllowsDrag (qt : Qt) (child : Option WidgetId)
    (h : ChildAllowsDrag qt child) :
    child.any (fun c => qt.cursorShape c ≠ CursorShape.ArrowCursor) = false ∧
    child.any (fun c => qt.qobject_cast c WidgetClass.QComboBox ||
      qt.qobject_cast c WidgetClass.QProgressBar ||
      qt.qobject_cast c WidgetClass.QScrollBar) = false := by
  cases child with
  | none => exact ⟨rfl, rfl⟩
  | some c =>
    obtain ⟨h1, h2, h3, h4⟩ := h c rfl
    simp [h1, h2, h3, h4]

/-- C12, as the specification states it, fails: `canDrag` rejects a press on a group box
without check box when the child under the press is a combo box (first part), and, whatever
the child, in the drag mode `WD_MINIMAL` (second part). -/
theorem C12_counterexample :
    (groupBoxQt.qobject_cast 7 WidgetClass.QGroupBox = true ∧ groupBoxQt.isCheckable 7 = false ∧
      groupBoxQt.childAt 7 ⟨5, 5⟩ = some 8 ∧ freshManager.dragMode = DragMode.WD_FULL ∧
      canDragAt groupBoxQt freshManager 7 (some 8) ⟨5, 5⟩ = false) ∧
    (minimalManager.dragMode = DragMode.WD_MINIMAL ∧
      canDragAt groupBoxQt minimalManager 7 none ⟨50, 50⟩ = false) := by
  decide

/-- C12, amended: in the drag mode `WD_FULL`, for every widget that is a group box with
`isCheckable()` false, every position and every child that is null or has the arrow cursor
and is no combo box, progress bar or scroll bar, `canDrag( widget, child, position )`
returns true. -/
theorem C12_plain_group_box_can_drag (qt : Qt) (s : WindowManager) (widget : WidgetId)
    (child : Option WidgetId) (position : QPoint)
    (hqt : qt.SingleInheritance)
    (hgroup : qt.qobject_cast widget WidgetClass.QGroupBox = true)
    (hcheck : qt.isCheckable widget = false)
    (hmode : s.dragMode = DragMode.WD_FULL)
    (hchild : ChildAllowsDrag qt child) :
    canDragAt qt s widget child position = true := by
  obtain ⟨hc1, hc2⟩ := childTests_of_childAllowsDrag qt child hchild
  have hnot : ∀ c, c ≠ WidgetClass.QGroupBox → qt.qobject_cast widget c = false := by
    intro c hc
    cases hcast : qt.qobject_cast widget c with
    | false => rfl
    | true =>
      rcases hqt widget c WidgetClass.QGroupBox hcast hgroup with h | h | h
      · exact (hc h).elim
      · cases c <;> simp [WidgetClass.derivesFrom] at h
      · cases c <;> simp [WidgetClass.derivesFrom] at h
  have h1 := hnot WidgetClass.QToolButton (by decide)
  have h2 := hnot WidgetClass.QMenuBar (by decide)
  have h3 := hnot WidgetClass.QTabBar (by decide)
  unfold canDragAt
  rw [hc1, hc2]
  simp [h1, h2, h3, hmode, hgroup, hcheck]

/-- C12, amended, at a press on the group box beside its combo box. -/
theorem C12_plain_group_box_can_drag_witness :
    groupBoxQt.childAt 7 ⟨50, 50⟩ = none ∧
    canDragAt groupBoxQt freshManager 7 (groupBoxQt.childAt 7 ⟨50, 50⟩) ⟨50, 50⟩ = true :=
  ⟨by decide, C12_plain_group_box_can_drag groupBoxQt freshManager 7 _ ⟨50, 50⟩
    (singleInheritance_of_classOf _ groupBoxClasses (fun _ _ h => of_decide_eq_true h))
    (by decide) (by decide) (by decide) (fun c h => by simp [groupBoxQt] at h)⟩

/-- C13: when the child under the press is not null and is a combo box, a progress bar or a
scroll bar, or has a cursor shape other than the arrow cursor, `canDrag( widget, child,
position )` returns false, for every widget, position and drag mode. -/
theorem C13_blocking_child (qt : Qt) (s : WindowManager) (widget c : WidgetId)
    (position : QPoint)
    (hchild : qt.qobject_cast c WidgetClass.QComboBox = true ∨
      qt.qobject_cast c WidgetClass.QProgressBar = true ∨
      qt.qobject_cast c WidgetClass.QScrollBar = true ∨
      qt.cursorShape c ≠ CursorShape.ArrowCursor) :
    canDragAt qt s widget (some c) position = false := by
  unfold canDragAt
  rcases hchild with h | h | h | h
  · by_cases hcur : qt.cursorShape c = CursorShape.ArrowCursor <;> simp [h, hcur]
  · by_cases hcur : qt.cursorShape c = CursorShape.ArrowCursor <;> simp [h, hcur]
  · by_cases hcur : qt.cursorShape c = CursorShape.ArrowCursor <;> simp [h, hcur]
  · simp [h]

/-- C13 at the combo box of a group box. -/
theorem C13_blocking_child_witness :
    groupBoxQt.qobject_cast 8 WidgetClass.QComboBox = true ∧
    canDragAt groupBoxQt freshManager 7 (some 8) ⟨5, 5⟩ = false :=
  ⟨by decide, C13_blocking_child groupBoxQt freshManager 7 8 ⟨5, 5⟩ (Or.inl (by decide))⟩

/-- C14: in the drag mode `WD_MINIMAL`, when `canDrag( widget, child, position )` returns
true the widget is a menu bar, a tool bar, or a tool button whose parent widget is a tool
bar. -/
theorem C14_minimal_mode_accepts_toolbars_only (qt : Qt) (s : WindowManager)
    (widget : WidgetId) (child : Option WidgetId) (position : QPoint)
    (hmode : s.dragMode = DragMode.WD_MINIMAL)
    (hdrag : canDragAt qt s widget child position = true) :
    qt.qobject_cast widget WidgetClass.QMenuBar = true ∨
    qt.qobject_cast widget WidgetClass.QToolBar = true ∨
    (qt.qobject_cast widget WidgetClass.QToolButton = true ∧
      ∃ parent, qt.parentWidget widget = some parent ∧
        qt.qobject_cast parent WidgetClass.QToolBar = true) := by
  unfold canDragAt at hdrag
  by_cases hbutton : qt.qobject_cast widget WidgetClass.QToolButton = true
  · refine Or.inr (Or.inr ⟨hbutton, ?_⟩)
    cases hparent : qt.parentWidget widget with
    | none =>
      simp [hbutton, hmode, hparent, Qt.cast] at hdrag
    | some parent =>
      refine ⟨parent, rfl, ?_⟩
      cases hbar : qt.qobject_cast parent WidgetClass.QToolBar with
      | true => rfl
      | false => simp [hbutton, hmode, hparent, Qt.cast, hbar] at hdrag
  · by_cases hmenu : qt.qobject_cast widget WidgetClass.QMenuBar = true
    · exact Or.inl hmenu
    · by_cases hbar : qt.qobject_cast widget WidgetClass.QToolBar = true
      · exact Or.inr (Or.inl hbar)
      · simp [hbutton, hmenu, hmode, hbar] at hdrag

/-- C14 at a tool bar. -/
theorem C14_minimal_mode_accepts_toolbars_only_witness :
    canDragAt toolBarQt minimalManager 7 none ⟨5, 5⟩ = true ∧
    (toolBarQt.qobject_cast 7 WidgetClass.QMenuBar = true ∨
      toolBarQt.qobject_cast 7 WidgetClass.QToolBar = true ∨
      (toolBarQt.qobject_cast 7 WidgetClass.QToolButton = true ∧
        ∃ parent, toolBarQt.parentWidget 7 = some parent ∧
          toolBarQt.qobject_cast parent WidgetClass.QToolBar = true)) :=
  ⟨by decide, C14_minimal_mode_accepts_toolbars_only toolBarQt minimalManager 7 none ⟨5, 5⟩
    (by decide) (by decide)⟩

/-- C15, as the specification states it, fails: a viewport of a list view can be any
widget; when it is a group box without check box, `canDrag` answers from the group box
branch and returns true, although the view has a model, an item under the position and a
frame. -/
theorem C15_counterexample :
    (freshManager.dragMode = DragMode.WD_FULL ∧
      (listViewQt (some WidgetClass.QGroupBox)).parentWidget 7 = some 6 ∧
      (listViewQt (some WidgetClass.QGroupBox)).qobject_cast 6 WidgetClass.QListView = true ∧
      (listViewQt (some WidgetClass.QGroupBox)).viewport 6 = some 7 ∧
      (listViewQt (some WidgetClass.QGroupBox)).hasModel 6 = true ∧
      (listViewQt (some WidgetClass.QGroupBox)).indexAtValid 6 ⟨5, 5⟩ = true ∧
      (listViewQt (some WidgetClass.QGroupBox)).frameShape 6 ≠ FrameShape.NoFrame) ∧
    canDragAt (listViewQt (some WidgetClass.QGroupBox)) freshManager 7 none ⟨5, 5⟩ = true := by
  decide

/-- C15, amended: in the drag mode `WD_FULL`, for every widget that is itself no tool
button, menu bar, tab bar or group box and is the viewport of its parent list view or tree
view, `canDrag( widget, child, position )` returns false when the view has a model and
`indexAt( position )` is a valid index, and also whenever the frame shape of the view is
not `NoFrame`. -/
theorem C15_item_view_blocks_drag (qt : Qt) (s : WindowManager) (widget view : WidgetId)
    (child : Option WidgetId) (position : QPoint)
    (hmode : s.dragMode = DragMode.WD_FULL)
    (hbutton : qt.qobject_cast widget WidgetClass.QToolButton = false)
    (hmenu : qt.qobject_cast widget WidgetClass.QMenuBar = false)
    (htab : qt.qobject_cast widget WidgetClass.QTabBar = false)
    (hgroup : qt.qobject_cast widget WidgetClass.QGroupBox = false)
    (hparent : qt.parentWidget widget = some view)
    (hview : qt.qobject_cast view WidgetClass.QListView = true ∨
      qt.qobject_cast view WidgetClass.QTreeView = true)
    (hviewport : qt.viewport view = some widget)
    (hblock : (qt.hasModel view = true ∧ qt.indexAtValid view position = true) ∨
      qt.frameShape view ≠ FrameShape.NoFrame) :
    canDragAt qt s widget child position = false := by
  have hitem : (qt.cast WidgetClass.QListView (some view)).orElse
      (fun _ => qt.cast WidgetClass.QTreeView (some view)) = some view := by
    cases hl : qt.qobject_cast view WidgetClass.QListView with
    | true => simp [Qt.cast, hl]
    | false =>
      rcases hview with h | h
      · rw [hl] at h; cases h
      · simp [Qt.cast, hl, h]
  have hview : canDragView qt widget position = false := by
    unfold canDragView
    by_cases hlabel : (qt.qobject_cast widget WidgetClass.QLabel &&
        qt.textSelectableByMouse widget) = true
    · rw [if_pos hlabel]
    · rw [if_neg hlabel]
      dsimp only
      rw [hparent, hitem]
      dsimp only
      rw [hviewport, if_pos rfl]
      rcases hblock with ⟨hm, hi⟩ | hf
      · split_ifs <;> simp_all
      · rw [if_pos hf]
  unfold canDragAt
  rw [hbutton, hmenu, htab, hgroup, hview, hmode]
  simp

/-- C15, amended, at a plain viewport of a list view with a frame and an item under the
position. -/
theorem C15_item_view_blocks_drag_witness :
    (listViewQt none).qobject_cast 6 WidgetClass.QListView = true ∧
    (listViewQt none).hasModel 6 = true ∧ (listViewQt none).indexAtValid 6 ⟨5, 5⟩ = true ∧
    canDragAt (listViewQt none) freshManager 7 none ⟨5, 5⟩ = false :=
  ⟨by decide, by decide, by decide,
    C15_item_view_blocks_drag (listViewQt none) freshManager 7 6 none ⟨5, 5⟩
      (by decide) (by decide) (by decide) (by decide) (by decide) (by decide)
      (Or.inl (by decide)) (by decide) (Or.inl ⟨by decide, by decide⟩)⟩

/-- C16: for a menu bar, with a child that does not block the drag, `canDrag( widget, child,
position )` returns false exactly when the menu bar is embedded in a `QMdiSubWindow`, or has
an active action that is enabled, or the action at the position is enabled and is no
separator; otherwise it returns true; the drag mode plays no role. -/
theorem C16_menu_bar_decision (qt : Qt) (s : WindowManager) (widget : WidgetId)
    (child : Option WidgetId) (position : QPoint)
    (hqt : qt.SingleInheritance)
    (hmenu : qt.qobject_cast widget WidgetClass.QMenuBar = true)
    (hchild : ChildAllowsDrag qt child) :
    (canDragAt qt s widget child position = false ↔
      (∃ parent ∈ qt.ancestors widget, qt.qobject_cast parent WidgetClass.QMdiSubWindow = true) ∨
      (∃ a, qt.activeAction widget = some a ∧ a.isEnabled = true) ∨
      (∃ a, qt.actionAt widget position = some a ∧ a.isEnabled = true ∧
        a.isSeparator = false)) ∧
    (canDragAt qt s widget child position = true ↔
      ¬((∃ parent ∈ qt.ancestors widget,
          qt.qobject_cast parent WidgetClass.QMdiSubWindow = true) ∨
        (∃ a, qt.activeAction widget = some a ∧ a.isEnabled = true) ∨
        (∃ a, qt.actionAt widget position = some a ∧ a.isEnabled = true ∧
          a.isSeparator = false))) := by
  obtain ⟨hc1, hc2⟩ := childTests_of_childAllowsDrag qt child hchild
  have hbutton : qt.qobject_cast widget WidgetClass.QToolButton = false := by
    cases hcast : qt.qobject_cast widget WidgetClass.QToolButton with
    | false => rfl
    | true =>
      rcases hqt widget _ _ hcast hmenu with h | h | h <;>
        simp [WidgetClass.derivesFrom] at h
  have hfalse : canDragAt qt s widget child position = false ↔
      (∃ parent ∈ qt.ancestors widget, qt.qobject_cast parent WidgetClass.QMdiSubWindow = true) ∨
      (∃ a, qt.activeAction widget = some a ∧ a.isEnabled = true) ∨
      (∃ a, qt.actionAt widget position = some a ∧ a.isEnabled = true ∧
        a.isSeparator = false) := by
    unfold canDragAt
    rw [hc1, hc2]
    simp only [Bool.false_eq_true, if_false, hbutton, hmenu, if_true, findParent]
    by_cases hmdi : ((qt.ancestors widget).find?
        (fun parent => qt.qobject_cast parent WidgetClass.QMdiSubWindow)).isSome = true
    · rw [if_pos hmdi]
      simp only [true_iff]
      exact Or.inl (List.find?_isSome.mp hmdi)
    · rw [if_neg hmdi]
      have hmdi' : ¬∃ parent ∈ qt.ancestors widget,
          qt.qobject_cast parent WidgetClass.QMdiSubWindow = true :=
        fun h => hmdi (List.find?_isSome.mpr h)
      cases hactive : qt.activeAction widget with
      | none =>
        cases hat : qt.actionAt widget position with
        | none => simp [hmdi']
        | some a => cases hs : a.isSeparator <;> cases he : a.isEnabled <;> simp [hmdi', hs, he]
      | some b =>
        cases hb : b.isEnabled with
        | true => simp [hb]
        | false =>
          cases hat : qt.actionAt widget position with
          | none => simp [hmdi', hb]
          | some a =>
            cases hs : a.isSeparator <;> cases he : a.isEnabled <;> simp [hmdi', hs, he, hb]
  refine ⟨hfalse, ?_⟩
  rw [← hfalse]
  cases canDragAt qt s widget child position <;> simp

/-- C16 at the enabled action of a menu bar, in the drag mode `WD_MINIMAL`. -/
theorem C16_menu_bar_decision_witness :
    menuBarQt.actionAt 7 ⟨5, 5⟩ = some ⟨false, true⟩ ∧
    canDragAt menuBarQt minimalManager 7 none ⟨5, 5⟩ = false :=
  ⟨by decide,
    (C16_menu_bar_decision menuBarQt minimalManager 7 none ⟨5, 5⟩
      (singleInheritance_of_classOf _
        (fun w => if w = 7 then some WidgetClass.QMenuBar else none)
        (fun _ _ h => of_decide_eq_true h))
      (by decide) (fun _ h => by cases h)).1.mpr
      (Or.inr (Or.inr ⟨⟨false, true⟩, by decide, by decide, by decide⟩))⟩

/-! ## The release event of the platform path -/

/-- C17, evaluated at the drag point (5,9) and the global position (105,109): the button
release event that `startDrag` sends has `root_x` 105 and `root_y` 109, `event_x` 5, but
`event_y` 5, the x coordinate of the drag point, instead of 9. -/
theorem C17_release_event_y_is_drag_point_x :
    slantedManager._dragPoint = ⟨5, 9⟩ ∧
    (startDrag plainQt slantedManager (some 4) ⟨105, 109⟩).xRequests.head? =
      some (XRequest.sendEvent false 1004 XCB_EVENT_MASK_BUTTON_RELEASE
        (XEvent.buttonRelease 1004 XCB_WINDOW_NONE 1 5 5 105 109
          XCB_BUTTON_INDEX_1 XCB_BUTTON_MASK_1 XCB_CURRENT_TIME true)) := by
  decide

/-! ## Start of the drag within a gesture -/

/-- A mouse move while no drag is in progress or about to start changes the drag timer only:
it runs with delay 0 afterwards when the move reaches the drag distance, and is not active
otherwise. -/
theorem mouseMoveEvent_idle (qt : Qt) (s : WindowManager) (object : WidgetId)
    (mouseEvent : QEvent)
    (hprog : s._dragInProgress = false) (habout : s._dragAboutToStart = false) :
    mouseMoveEvent qt s object mouseEvent = some (true, { s with _dragTimer :=
      (if (mouseEvent.globalPos - s._globalDragPoint).manhattanLength ≥ s._dragDistance
        then some 0 else none) }) := by
  unfold mouseMoveEvent
  by_cases hd : (mouseEvent.globalPos - s._globalDragPoint).manhattanLength ≥ s._dragDistance
  · cases ht : s._dragTimer <;> simp [hprog, habout, hd, ht]
  · cases ht : s._dragTimer <;> simp [hprog, habout, hd, ht]
    cases s
    simp_all

/-- No drag is in progress or about to start, and either the drag timer is not active while
the drag point and distance are the given ones, or there is no target. -/
theorem runGesture_drag_needs_distance (qt : Qt) (globalDragPoint : QPoint)
    (dragDistance : Int) (events : List GestureEvent) :
    ∀ s s' : WindowManager,
      s._dragInProgress = false → s._dragAboutToStart = false →
      ((s._dragTimer = none ∧ s._globalDragPoint = globalDragPoint ∧
          s._dragDistance = dragDistance) ∨ s._target = none) →
      RealTimerEvents events →
      runGesture qt s events = some s' → s'._dragInProgress = true →
      ReachesDragDistance globalDragPoint dragDistance events := by
  induction events with
  | nil =>
    intro s s' hprog _ _ _ hrun hstart
    simp only [runGesture, Option.some.injEq] at hrun
    rw [← hrun, hprog] at hstart
    cases hstart
  | cons e es ih =>
    intro s s' hprog habout hstate hreal hrun hstart
    have hreal' : RealTimerEvents es := fun t ht => hreal t (List.mem_cons_of_mem _ ht)
    have hlift : ReachesDragDistance globalDragPoint dragDistance es →
        ReachesDragDistance globalDragPoint dragDistance (e :: es) := by
      rintro ⟨o, ev, hmem, hd⟩
      exact ⟨o, ev, List.mem_cons_of_mem _ hmem, hd⟩
    cases e with
    | move object event =>
      have hs1 := mouseMoveEvent_idle qt s object event hprog habout
      have hrun' : runGesture qt { s with _dragTimer :=
          (if (event.globalPos - s._globalDragPoint).manhattanLength ≥ s._dragDistance
            then some 0 else none) } es = some s' := by
        simpa [runGesture, handleGesture, hs1] using hrun
      rcases hstate with ⟨_, hg, hdist⟩ | htarget
      · by_cases hd : (event.globalPos - s._globalDragPoint).manhattanLength ≥ s._dragDistance
        · exact ⟨object, event, List.mem_cons_self _ _, by rw [← hg, ← hdist]; exact hd⟩
        · rw [if_neg hd] at hrun'
          exact hlift (ih { s with _dragTimer := none } s' hprog habout
            (Or.inl ⟨rfl, hg, hdist⟩) hreal' hrun' hstart)
      · exact hlift (ih { s with _dragTimer :=
            (if (event.globalPos - s._globalDragPoint).manhattanLength ≥ s._dragDistance
              then some 0 else none) } s' hprog habout (Or.inr htarget) hreal' hrun' hstart)
    | release object event =>
      obtain ⟨r1, _, _, _, r5, r6⟩ := resetDrag_fields qt s
      have hrun' : runGesture qt (resetDrag qt s) es = some s' := by
        simpa [runGesture, handleGesture, mouseReleaseEvent] using hrun
      exact hlift (ih _ s' r6 r5 (Or.inr r1) hreal' hrun' hstart)
    | timer event =>
      have hid : event.timerId ≠ 0 := hreal event (List.mem_cons_self _ _)
      have hrun' : runGesture qt (timerEvent qt s event) es = some s' := by
        simpa [runGesture, handleGesture] using hrun
      rcases hstate with ⟨ht, hg, hdist⟩ | htarget
      · have hsame : timerEvent qt s event = s := by
          unfold timerEvent
          simp [ht, QBasicTimer.timerId, hid]
        rw [hsame] at hrun'
        exact hlift (ih s s' hprog habout (Or.inl ⟨ht, hg, hdist⟩) hreal' hrun' hstart)
      · have hfields : (timerEvent qt s event)._dragInProgress = false ∧
            (timerEvent qt s event)._dragAboutToStart = false ∧
            (timerEvent qt s event)._target = none := by
          unfold timerEvent
          dsimp only
          split_ifs <;> simp_all
        exact hlift (ih _ s' hfields.1 hfields.2.1 (Or.inr hfields.2.2) hreal' hrun' hstart)

/-- C18: a mouse move handled by `mouseMoveEvent` while no drag is in progress, the flag
`_dragAboutToStart` is false and the Manhattan length of (global position - global drag
point) is smaller than `_dragDistance` is consumed and leaves the drag timer not active, also
when it was running before the call. Afterwards, whatever mouse moves, mouse releases and
timer events follow in the gesture, a drag is only in progress when one of the later moves
has reached `_dragDistance`. -/
theorem C18_short_move_cancels_delayed_start (qt : Qt) (s : WindowManager)
    (object : WidgetId) (mouseEvent : QEvent)
    (hprog : s._dragInProgress = false) (habout : s._dragAboutToStart = false)
    (hshort : (mouseEvent.globalPos - s._globalDragPoint).manhattanLength < s._dragDistance) :
    ∃ s', mouseMoveEvent qt s object mouseEvent = some (true, s') ∧
      s'._dragTimer = none ∧ s'._dragInProgress = false ∧
      ∀ events s'', RealTimerEvents events → runGesture qt s' events = some s'' →
        s''._dragInProgress = true →
        ReachesDragDistance s._globalDragPoint s._dragDistance events := by
  have hd : ¬(mouseEvent.globalPos - s._globalDragPoint).manhattanLength ≥ s._dragDistance :=
    not_le.mpr hshort
  have hmove := mouseMoveEvent_idle qt s object mouseEvent hprog habout
  rw [if_neg hd] at hmove
  refine ⟨{ s with _dragTimer := none }, hmove, rfl, hprog, ?_⟩
  intro events s'' hreal hrun hstart
  exact runGesture_drag_needs_distance qt s._globalDragPoint s._dragDistance events
    { s with _dragTimer := none } s'' hprog habout (Or.inl ⟨rfl, rfl, rfl⟩) hreal hrun hstart

/-- C18 at a move of 3 pixels while the timer runs with the drag delay; after it the timer
event alone starts no drag, and a later move of 15 pixels followed by the timer event does. -/
theorem C18_short_move_cancels_delayed_start_witness :
    (pressedManager._dragTimer = some pressedManager._dragDelay ∧
      (runGesture plainQt { pressedManager with _dragTimer := none }
        [GestureEvent.timer ⟨1⟩]).map (fun t => t._dragInProgress) = some false ∧
      (runGesture plainQt { pressedManager with _dragTimer := none }
        [GestureEvent.move 4 (moveTo ⟨115, 110⟩), GestureEvent.timer ⟨1⟩]).map
          (fun t => t._dragInProgress) = some true) ∧
    ∃ s', mouseMoveEvent plainQt pressedManager 4 (moveTo ⟨106, 103⟩) = some (true, s') ∧
      s'._dragTimer = none ∧ s'._dragInProgress = false ∧
      ∀ events s'', RealTimerEvents events → runGesture plainQt s' events = some s'' →
        s''._dragInProgress = true →
        ReachesDragDistance pressedManager._globalDragPoint pressedManager._dragDistance
          events :=
  ⟨⟨by decide, by decide, by decide⟩,
    C18_short_move_cancels_delayed_start plainQt pressedManager 4 (moveTo ⟨106, 103⟩)
      (by decide) (by decide) (by decide)⟩

end WindowManager

end Oxygen
